import Mathlib

set_option autoImplicit false

/-!
Verification development for the LLGL device state cache
(`src/sources/Renderer/OpenGL/RenderState/GLStateManager.h`) and the debug-layer
buffer boundary validation (`src/sources/Renderer/DebugLayer/DbgRenderSystem.cpp`).

The source tree contains only the declaration header `GLStateManager.h` for the
state cache; the member-function bodies (`GLStateManager.cpp`) are not part of
the tree.  The data layout below (which tables exist, their element types, the
fixed table sizes, the stack entry shapes) is taken from the structures declared
in the header; the behaviour of the operations is modelled from the
specification, as marked on each definition.
-/

namespace LLGL

/-- Applier (device) calls: the narrow set of native verbs the cache may forward.
The cache itself never performs these; it only decides whether to emit them.
Emitted calls are collected in a list, in order. -/
inductive GLCall where
  | enableState (state : Nat) (value : Bool)
  | bindBuffer (target : Nat) (buffer : Nat)
  | bindBufferBase (target : Nat) (index : Nat) (buffer : Nat)
  | bindBuffersBase (target : Nat) (first : Nat) (buffers : List Nat)
  | bindVertexArray (vertexArray : Nat)
  | bindFramebuffer (target : Nat) (framebuffer : Nat)
  | bindRenderbuffer (renderbuffer : Nat)
  | activeTexture (layer : Nat)
  | bindTexture (target : Nat) (texture : Nat)
  | bindTextures (first : Nat) (entries : List (Nat × Nat))
  | bindSampler (layer : Nat) (sampler : Nat)
  | bindSamplers (first : Nat) (samplers : List Nat)
  | useProgram (program : Nat)
  | viewportArray (first : Nat) (count : Nat)
  | depthRangeArray (first : Nat) (count : Nat)
  | scissorArray (first : Nat) (count : Nat)
  deriving DecidableEq, Repr

/-- Errors of the cache layer: `contractViolation` is the reported programmer
error of the specification's error taxonomy (unbalanced pop, array range beyond
a device limit); `outOfBounds` models an index outside a fixed-size table
(undefined behaviour of the C++ `std::array` access). -/
inductive GLError where
  | contractViolation
  | outOfBounds
  deriving DecidableEq, Repr

/-- Generic slot-indexed cache with a LIFO save/restore stack: the shape shared
by `GLRenderState`, `GLBufferState`, `GLFramebufferState`, `GLTextureState` and
`GLShaderState` in `GLStateManager.h` (a value table plus a `std::stack` of
(key, saved value) entries). -/
structure SCache (K V : Type) where
  cache : K → V
  stack : List (K × V)

namespace SCache

variable {K V : Type} [DecidableEq K] [DecidableEq V]

/-- Modelled from the spec: the compare-and-maybe-forward rule.  Equal cached
value means no device call; different means forward exactly one apply (returned
as the (key, value) pair) and update the cache entry. -/
def bind (s : SCache K V) (k : K) (v : V) : SCache K V × List (K × V) :=
  if s.cache k = v then
    (s, [])
  else
    ({ s with cache := fun q => if q = k then v else s.cache q }, [(k, v)])

/-- Modelled from the spec: push records (key, current cached value) on the
LIFO stack; it never fails and performs no device call. -/
def push (s : SCache K V) (k : K) : SCache K V :=
  { s with stack := (k, s.cache k) :: s.stack }

/-- Modelled from the spec: pop on an empty stack is a reported contract
violation; otherwise the most recently pushed entry is removed and its saved
value is restored through the normal deduplicated `bind` path. -/
def pop (s : SCache K V) : Except GLError (SCache K V × List (K × V)) :=
  match s.stack with
  | [] => .error .contractViolation
  | (k, v) :: rest => .ok (SCache.bind { s with stack := rest } k v)

/-- Fold a list of binds over the cache, dropping the forwarded calls. -/
def bindAll (s : SCache K V) (bs : List (K × V)) : SCache K V :=
  bs.foldl (fun t kv => (t.bind kv.1 kv.2).1) s

/-- Fold a list of pushes over the cache. -/
def pushAll (s : SCache K V) (ks : List K) : SCache K V :=
  ks.foldl SCache.push s

/-- Pop `n` entries in order, failing if the stack runs out. -/
def popN (s : SCache K V) : Nat → Except GLError (SCache K V)
  | 0 => .ok s
  | n + 1 =>
    match s.pop with
    | .error e => .error e
    | .ok (t, _) => t.popN n

/-- Overwrite the cache table with a list of (key, value) assignments, in
order; the effect of restoring a list of stack entries. -/
def applyEntries (c : K → V) (es : List (K × V)) : K → V :=
  es.foldl (fun f kv => fun q => if q = kv.1 then kv.2 else f q) c

end SCache

/-- Fixed texture-unit capacity (`GLStateManager.h` line 192):
`static const std::uint32_t numTextureLayers = 32`. -/
def numTextureLayers : Nat := 32

/-- GL limitations used for validation of state parameters
(`GLStateManager.h` lines 205-209); `maxViewports` defaults to 16 and is
documented to be at least 16. -/
structure GLLimits where
  maxViewports : Nat := 16
  deriving DecidableEq, Repr

/-- Vertex-array sub-state (`GLStateManager.h` lines 305-309): the bound
vertex array and the index buffer associated with the active vertex array. -/
structure GLVertexArrayState where
  boundVertexArray : Nat := 0
  boundElementArrayBuffer : Nat := 0
  deriving DecidableEq, Repr

/-- Modelled from the spec: the index of the `ELEMENT_ARRAY_BUFFER` category in
the buffer binding table.  The `GLBufferTarget` enumeration lives in
`GLState.h`, which is not part of the source tree; the exact enumerator value
is irrelevant to the properties proved here. -/
def elementArrayBufferTarget : Nat := 1

/-- The device state cache (`GLStateManager` of `GLStateManager.h`).  The table
and stack shapes follow the structures declared in the header:
`GLRenderState` (boolean values plus value stack), `GLBufferState` (per-target
bound buffer plus stack), `GLFramebufferState`, `GLRenderbufferState`,
`GLTextureState` (32 layers of per-target bound textures, the active texture
layer, plus stack), `GLVertexArrayState`, `GLShaderState` (bound program plus
stack), `GLSamplerState` (32 bound samplers) and `GLLimits`.
The per-(target, index) cells `indexedBufferState` are modelled from the spec:
the slot table addressed by `bindRange`/`BindBuffersBase`, where `none` marks a
cell treated as stale so that the next single-slot bind always issues a real
device call.  Handles are opaque integers with 0 the unbound sentinel. -/
structure GLStateManager where
  renderState : SCache Nat Bool
  bufferState : SCache Nat Nat
  indexedBufferState : Nat → Nat → Option Nat
  framebufferState : SCache Nat Nat
  renderbufferState : Nat
  textureState : SCache (Fin numTextureLayers × Nat) Nat
  activeTexture : Fin numTextureLayers
  vertexArrayState : GLVertexArrayState
  shaderState : SCache Unit Nat
  samplerState : Fin numTextureLayers → Nat
  limits : GLLimits

namespace GLStateManager

/-- Initial cache state: every slot, cell and boolean state unbound/disabled,
all scope stacks empty, active texture layer 0, default limits. -/
def initial : GLStateManager where
  renderState := ⟨fun _ => false, []⟩
  bufferState := ⟨fun _ => 0, []⟩
  indexedBufferState := fun _ _ => some 0
  framebufferState := ⟨fun _ => 0, []⟩
  renderbufferState := 0
  textureState := ⟨fun _ => 0, []⟩
  activeTexture := ⟨0, by decide⟩
  vertexArrayState := {}
  shaderState := ⟨fun _ => 0, []⟩
  samplerState := fun _ => 0
  limits := {}

/- ----- Boolean states ----- -/

/-- Modelled from the spec: `GLStateManager::Set(GLState, bool)` (the member
bodies of `GLStateManager.cpp` are not part of the source tree; only the
declarations in `GLStateManager.h` are).  Compare against the cached boolean
value; equal means no device call, different means forward one
enable/disable call and update the cache. -/
def Set (st : GLStateManager) (state : Nat) (value : Bool) :
    GLStateManager × List GLCall :=
  let r := st.renderState.bind state value
  ({ st with renderState := r.1 }, r.2.map fun kv => .enableState kv.1 kv.2)

/-- Modelled from the spec: `GLStateManager::PushState` saves
(state, current value) on the boolean value stack; no device call. -/
def PushState (st : GLStateManager) (state : Nat) : GLStateManager :=
  { st with renderState := st.renderState.push state }

/-- Modelled from the spec: `GLStateManager::PopState` restores the most
recently pushed boolean state through the deduplicated `Set` path; popping an
empty stack is a reported contract violation. -/
def PopState (st : GLStateManager) : Except GLError (GLStateManager × List GLCall) :=
  match st.renderState.pop with
  | .error e => .error e
  | .ok (r, fwd) =>
    .ok ({ st with renderState := r }, fwd.map fun kv => .enableState kv.1 kv.2)

/-- Modelled from the spec: `GLStateManager::PopStates(count)` pops `count`
boolean states in one call. -/
def PopStates (st : GLStateManager) : Nat → Except GLError (GLStateManager × List GLCall)
  | 0 => .ok (st, [])
  | n + 1 =>
    match st.PopState with
    | .error e => .error e
    | .ok (st1, calls1) =>
      match st1.PopStates n with
      | .error e => .error e
      | .ok (st2, calls2) => .ok (st2, calls1 ++ calls2)

/- ----- Buffers ----- -/

/-- Modelled from the spec: `GLStateManager::BindBuffer(target, buffer)`:
compare-and-maybe-forward on the per-target bound buffer table. -/
def BindBuffer (st : GLStateManager) (target buffer : Nat) :
    GLStateManager × List GLCall :=
  let r := st.bufferState.bind target buffer
  ({ st with bufferState := r.1 }, r.2.map fun kv => .bindBuffer kv.1 kv.2)

/-- Modelled from the spec: `GLStateManager::BindBufferBase(target, index,
buffer)`, the single-slot indexed bind.  A cell holding `some buffer` elides
the call; a differing or stale (`none`) cell issues one device call and caches
the bound handle precisely. -/
def BindBufferBase (st : GLStateManager) (target index buffer : Nat) :
    GLStateManager × List GLCall :=
  if st.indexedBufferState target index = some buffer then
    (st, [])
  else
    ({ st with indexedBufferState := fun t i =>
        if t = target ∧ i = index then some buffer else st.indexedBufferState t i },
     [.bindBufferBase target index buffer])

/-- Modelled from the spec: `GLStateManager::BindBuffersBase(target, first,
count, buffers)`, the batch range bind.  One device call is issued for the
whole range; the cache entry for the first slot is updated precisely to the
first handle, and the remaining slots of the range are marked stale (`none`)
so that the next single-slot bind to them always issues a real device call. -/
def BindBuffersBase (st : GLStateManager) (target first : Nat)
    (buffers : List Nat) : GLStateManager × List GLCall :=
  ({ st with indexedBufferState := fun t i =>
      match buffers with
      | [] => st.indexedBufferState t i
      | b :: _ =>
        if t = target then
          if i = first then some b
          else if first < i ∧ i < first + buffers.length then none
          else st.indexedBufferState t i
        else st.indexedBufferState t i },
   [.bindBuffersBase target first buffers])

/-- Modelled from the spec: `GLStateManager::BindVertexArray`: deduplicated
bind of the vertex array object; switching the vertex array implicitly changes
which index buffer is considered bound, so the `ELEMENT_ARRAY_BUFFER` slot of
the buffer table is rewritten to the index buffer associated with the next
vertex array. -/
def BindVertexArray (st : GLStateManager) (vertexArray : Nat) :
    GLStateManager × List GLCall :=
  if st.vertexArrayState.boundVertexArray = vertexArray then
    (st, [])
  else
    ({ st with
        vertexArrayState := { st.vertexArrayState with boundVertexArray := vertexArray },
        bufferState := { st.bufferState with cache := fun t =>
          (if t = elementArrayBufferTarget then st.vertexArrayState.boundElementArrayBuffer
           else st.bufferState.cache t) } },
     [.bindVertexArray vertexArray])

/-- Modelled from the spec: `GLStateManager::BindElementArrayBufferToVAO`:
remembers the index buffer for the next vertex array; while a vertex array is
bound, the buffer is also bound through the normal deduplicated path. -/
def BindElementArrayBufferToVAO (st : GLStateManager) (buffer : Nat) :
    GLStateManager × List GLCall :=
  let st1 := { st with vertexArrayState :=
    { st.vertexArrayState with boundElementArrayBuffer := buffer } }
  if st.vertexArrayState.boundVertexArray = 0 then
    (st1, [])
  else
    st1.BindBuffer elementArrayBufferTarget buffer

/-- Modelled from the spec: `GLStateManager::PushBoundBuffer(target)` saves
(target, currently bound buffer) on the buffer stack; no device call. -/
def PushBoundBuffer (st : GLStateManager) (target : Nat) : GLStateManager :=
  { st with bufferState := st.bufferState.push target }

/-- Modelled from the spec: `GLStateManager::PopBoundBuffer` restores the most
recently pushed buffer binding through the deduplicated `BindBuffer` path;
popping an empty stack is a reported contract violation. -/
def PopBoundBuffer (st : GLStateManager) :
    Except GLError (GLStateManager × List GLCall) :=
  match st.bufferState.pop with
  | .error e => .error e
  | .ok (r, fwd) =>
    .ok ({ st with bufferState := r }, fwd.map fun kv => .bindBuffer kv.1 kv.2)

/- ----- Framebuffers ----- -/

/-- Modelled from the spec: `GLStateManager::BindFramebuffer(target,
framebuffer)`: compare-and-maybe-forward on the per-target framebuffer
table. -/
def BindFramebuffer (st : GLStateManager) (target framebuffer : Nat) :
    GLStateManager × List GLCall :=
  let r := st.framebufferState.bind target framebuffer
  ({ st with framebufferState := r.1 }, r.2.map fun kv => .bindFramebuffer kv.1 kv.2)

/-- Modelled from the spec: `GLStateManager::PushBoundFramebuffer(target)`. -/
def PushBoundFramebuffer (st : GLStateManager) (target : Nat) : GLStateManager :=
  { st with framebufferState := st.framebufferState.push target }

/-- Modelled from the spec: `GLStateManager::PopBoundFramebuffer`; popping an
empty stack is a reported contract violation. -/
def PopBoundFramebuffer (st : GLStateManager) :
    Except GLError (GLStateManager × List GLCall) :=
  match st.framebufferState.pop with
  | .error e => .error e
  | .ok (r, fwd) =>
    .ok ({ st with framebufferState := r }, fwd.map fun kv => .bindFramebuffer kv.1 kv.2)

/-- Modelled from the spec: `GLStateManager::BindRenderbuffer`: deduplicated
bind of the single renderbuffer slot. -/
def BindRenderbuffer (st : GLStateManager) (renderbuffer : Nat) :
    GLStateManager × List GLCall :=
  if st.renderbufferState = renderbuffer then
    (st, [])
  else
    ({ st with renderbufferState := renderbuffer }, [.bindRenderbuffer renderbuffer])

/- ----- Textures ----- -/

/-- Modelled from the spec: unit selection with a valid layer index; the
deduplicated core of `GLStateManager::ActiveTexture`.  A unit-select call is
issued only when the requested layer differs from the cached active layer. -/
def ActiveTextureFin (st : GLStateManager) (layer : Fin numTextureLayers) :
    GLStateManager × List GLCall :=
  if st.activeTexture = layer then
    (st, [])
  else
    ({ st with activeTexture := layer }, [.activeTexture layer.val])

/-- Modelled from the spec: `GLStateManager::ActiveTexture(layer)`.  The layer
indexes the fixed 32-entry layer table; an index at or above
`numTextureLayers` falls outside the array. -/
def ActiveTexture (st : GLStateManager) (layer : Nat) :
    Except GLError (GLStateManager × List GLCall) :=
  if h : layer < numTextureLayers then
    .ok (st.ActiveTextureFin ⟨layer, h⟩)
  else
    .error .outOfBounds

/-- Modelled from the spec: `GLStateManager::BindTexture(target, texture)`:
compare-and-maybe-forward on the (active layer, target) cell of the texture
binding matrix. -/
def BindTexture (st : GLStateManager) (target texture : Nat) :
    GLStateManager × List GLCall :=
  let r := st.textureState.bind (st.activeTexture, target) texture
  ({ st with textureState := r.1 }, r.2.map fun kv => .bindTexture kv.1.2 kv.2)

/-- Modelled from the spec: the TextureBindingMatrix `bind(unit, targetKind,
handle)` contract — select the unit if it differs from the cached active unit,
then bind on the (unit, target) cell through the deduplicated path.  Realized
by `ActiveTexture` followed by `BindTexture`. -/
def BindTextureAt (st : GLStateManager) (layer target texture : Nat) :
    Except GLError (GLStateManager × List GLCall) :=
  match st.ActiveTexture layer with
  | .error e => .error e
  | .ok (st1, calls1) =>
    let r := st1.BindTexture target texture
    .ok (r.1, calls1 ++ r.2)

/-- Modelled from the spec: `GLStateManager::BindTextures(first, count,
targets, textures)`, the batch range bind of the texture matrix.  One device
call; every touched (layer, target) cell in the range is updated individually
(no first-only shortcut for textures).  The range must lie inside the
32-entry layer table. -/
def BindTextures (st : GLStateManager) (first : Nat)
    (entries : List (Nat × Nat)) : Except GLError (GLStateManager × List GLCall) :=
  if first + entries.length ≤ numTextureLayers then
    .ok ({ st with textureState := { st.textureState with cache := fun k =>
        (match entries.get? (k.1.val - first) with
         | some e =>
           if first ≤ k.1.val ∧ k.2 = e.1 then e.2 else st.textureState.cache k
         | none => st.textureState.cache k) } },
      [.bindTextures first entries])
  else
    .error .outOfBounds

/-- Modelled from the spec: push of the texture scope stack with a valid layer
index: records (layer, target, currently bound texture); no device call. -/
def PushBoundTextureFin (st : GLStateManager) (layer : Fin numTextureLayers)
    (target : Nat) : GLStateManager :=
  { st with textureState := st.textureState.push (layer, target) }

/-- Modelled from the spec: `GLStateManager::PushBoundTexture(layer, target)`;
a layer at or above `numTextureLayers` falls outside the array. -/
def PushBoundTexture (st : GLStateManager) (layer target : Nat) :
    Except GLError GLStateManager :=
  if h : layer < numTextureLayers then
    .ok (st.PushBoundTextureFin ⟨layer, h⟩ target)
  else
    .error .outOfBounds

/-- Modelled from the spec: `GLStateManager::PopBoundTexture` restores the most
recently pushed (layer, target, texture) entry: the unit-select state if the
unit changed, then the binding itself, both through the normal deduplicated
paths; popping an empty stack is a reported contract violation. -/
def PopBoundTexture (st : GLStateManager) :
    Except GLError (GLStateManager × List GLCall) :=
  match st.textureState.stack with
  | [] => .error .contractViolation
  | (k, tex) :: rest =>
    let selCalls : List GLCall :=
      if st.activeTexture = k.1 then [] else [.activeTexture k.1.val]
    let r := SCache.bind ⟨st.textureState.cache, rest⟩ k tex
    .ok ({ st with activeTexture := k.1, textureState := r.1 },
         selCalls ++ r.2.map fun kv => .bindTexture kv.1.2 kv.2)

/- ----- Samplers ----- -/

/-- Modelled from the spec: `GLStateManager::BindSampler(layer, sampler)`:
compare-and-maybe-forward on the fixed 32-entry sampler table; a layer at or
above `numTextureLayers` falls outside the array. -/
def BindSampler (st : GLStateManager) (layer sampler : Nat) :
    Except GLError (GLStateManager × List GLCall) :=
  if h : layer < numTextureLayers then
    if st.samplerState ⟨layer, h⟩ = sampler then
      .ok (st, [])
    else
      .ok ({ st with samplerState := fun l =>
          (if l = ⟨layer, h⟩ then sampler else st.samplerState l) },
        [.bindSampler layer sampler])
  else
    .error .outOfBounds

/-- Modelled from the spec: `GLStateManager::BindSamplers(first, count,
samplers)`, the batch range bind of the sampler table; one device call, every
touched slot updated; the range must lie inside the 32-entry table. -/
def BindSamplers (st : GLStateManager) (first : Nat) (samplers : List Nat) :
    Except GLError (GLStateManager × List GLCall) :=
  if first + samplers.length ≤ numTextureLayers then
    .ok ({ st with samplerState := fun l =>
        (match samplers.get? (l.val - first) with
         | some s => if first ≤ l.val then s else st.samplerState l
         | none => st.samplerState l) },
      [.bindSamplers first samplers])
  else
    .error .outOfBounds

/- ----- Shader programs ----- -/

/-- Modelled from the spec: `GLStateManager::BindShaderProgram(program)`:
compare-and-maybe-forward on the single bound-program slot. -/
def BindShaderProgram (st : GLStateManager) (program : Nat) :
    GLStateManager × List GLCall :=
  let r := st.shaderState.bind () program
  ({ st with shaderState := r.1 }, r.2.map fun kv => .useProgram kv.2)

/-- Modelled from the spec: `GLStateManager::PushShaderProgram` saves the
currently bound program on the program stack; no device call. -/
def PushShaderProgram (st : GLStateManager) : GLStateManager :=
  { st with shaderState := st.shaderState.push () }

/-- Modelled from the spec: `GLStateManager::PopShaderProgram` restores the
most recently pushed program through the deduplicated `BindShaderProgram`
path; popping an empty stack is a reported contract violation. -/
def PopShaderProgram (st : GLStateManager) :
    Except GLError (GLStateManager × List GLCall) :=
  match st.shaderState.pop with
  | .error e => .error e
  | .ok (r, fwd) =>
    .ok ({ st with shaderState := r }, fwd.map fun kv => .useProgram kv.2)

/- ----- Viewport/scissor arrays ----- -/

/-- Modelled from the spec: `GLStateManager::AssertViewportLimit(first,
count)`: a range whose end exceeds the device-reported maximum is a reported
contract violation, never silently clamped. -/
def AssertViewportLimit (st : GLStateManager) (first count : Nat) :
    Except GLError Unit :=
  if st.limits.maxViewports < first + count then
    .error .contractViolation
  else
    .ok ()

/-- Modelled from the spec: `GLStateManager::SetViewportArray(first, count,
viewports)`: validate the range against the limit, then apply the whole range
with one device call.  The floating-point rectangle payloads are never
compared by the cache and are abstracted away. -/
def SetViewportArray (st : GLStateManager) (first count : Nat) :
    Except GLError (GLStateManager × List GLCall) :=
  match st.AssertViewportLimit first count with
  | .error e => .error e
  | .ok _ => .ok (st, [.viewportArray first count])

/-- Modelled from the spec: `GLStateManager::SetDepthRangeArray(first, count,
depthRanges)`, validated by the same viewport limit. -/
def SetDepthRangeArray (st : GLStateManager) (first count : Nat) :
    Except GLError (GLStateManager × List GLCall) :=
  match st.AssertViewportLimit first count with
  | .error e => .error e
  | .ok _ => .ok (st, [.depthRangeArray first count])

/-- Modelled from the spec: `GLStateManager::SetScissorArray(first, count,
scissors)`, validated by the same viewport limit. -/
def SetScissorArray (st : GLStateManager) (first count : Nat) :
    Except GLError (GLStateManager × List GLCall) :=
  match st.AssertViewportLimit first count with
  | .error e => .error e
  | .ok _ => .ok (st, [.scissorArray first count])

/- ----- Release notifications (instance level) ----- -/

/-- Modelled from the spec: the release scan for a buffer handle — every slot
or cell of the buffer tables (per-target slots, indexed cells, and the
VAO-associated index buffer sub-slot) holding the handle is reset to the
unbound sentinel 0; no device call is issued.  The second component is the
(always empty) list of forwarded device calls. -/
def releaseBuffer (st : GLStateManager) (buffer : Nat) :
    GLStateManager × List GLCall :=
  ({ st with
      bufferState := { st.bufferState with cache := fun t =>
        (if st.bufferState.cache t = buffer then 0 else st.bufferState.cache t) },
      indexedBufferState := fun t i =>
        (if st.indexedBufferState t i = some buffer then some 0
         else st.indexedBufferState t i),
      vertexArrayState := { st.vertexArrayState with
        boundElementArrayBuffer :=
          if st.vertexArrayState.boundElementArrayBuffer = buffer then 0
          else st.vertexArrayState.boundElementArrayBuffer } },
   [])

/-- Modelled from the spec: the release scan for a texture handle over every
(layer, target) cell of the texture binding matrix; no device call. -/
def releaseTexture (st : GLStateManager) (texture : Nat) :
    GLStateManager × List GLCall :=
  ({ st with textureState := { st.textureState with cache := fun k =>
      (if st.textureState.cache k = texture then 0 else st.textureState.cache k) } },
   [])

/-- Modelled from the spec: the release scan for a sampler handle over the
sampler table; no device call. -/
def releaseSampler (st : GLStateManager) (sampler : Nat) :
    GLStateManager × List GLCall :=
  ({ st with samplerState := fun l =>
      (if st.samplerState l = sampler then 0 else st.samplerState l) },
   [])

/-- Modelled from the spec: the release scan for a framebuffer handle over the
per-target framebuffer slots; no device call. -/
def releaseFramebuffer (st : GLStateManager) (framebuffer : Nat) :
    GLStateManager × List GLCall :=
  ({ st with framebufferState := { st.framebufferState with cache := fun t =>
      (if st.framebufferState.cache t = framebuffer then 0
       else st.framebufferState.cache t) } },
   [])

/-- Modelled from the spec: the release scan for a shader program handle on
the bound-program slot; no device call. -/
def releaseShaderProgram (st : GLStateManager) (program : Nat) :
    GLStateManager × List GLCall :=
  ({ st with shaderState := { st.shaderState with cache := fun u =>
      (if st.shaderState.cache u = program then 0 else st.shaderState.cache u) } },
   [])

end GLStateManager

/- ----- Release notifications (static, routed through the active instance) ----- -/

/-- Modelled from the spec: `GLStateManager::NotifyBufferRelease(buffer,
target)` routes to the process-wide active instance; with no active instance
it is a safe no-op.  The `target` parameter names the resource category of the
header signature; the scan covers the buffer tables of the instance. -/
def NotifyBufferRelease (active : Option GLStateManager) (buffer _target : Nat) :
    Option GLStateManager :=
  match active with
  | none => none
  | some st => some (st.releaseBuffer buffer).1

/-- Modelled from the spec: `GLStateManager::NotifyTextureRelease(texture,
target)` routes to the active instance; with no active instance it is a safe
no-op. -/
def NotifyTextureRelease (active : Option GLStateManager) (texture _target : Nat) :
    Option GLStateManager :=
  match active with
  | none => none
  | some st => some (st.releaseTexture texture).1

/-- Modelled from the spec: `GLStateManager::NotifySamplerRelease(sampler)`
routes to the active instance; with no active instance it is a safe no-op. -/
def NotifySamplerRelease (active : Option GLStateManager) (sampler : Nat) :
    Option GLStateManager :=
  match active with
  | none => none
  | some st => some (st.releaseSampler sampler).1

/-- Modelled from the spec: `GLStateManager::NotifyFramebufferRelease(framebuffer)`
routes to the active instance; with no active instance it is a safe no-op. -/
def NotifyFramebufferRelease (active : Option GLStateManager) (framebuffer : Nat) :
    Option GLStateManager :=
  match active with
  | none => none
  | some st => some (st.releaseFramebuffer framebuffer).1

/-- Modelled from the spec: `GLStateManager::NotifyShaderProgramRelease(program)`
routes to the active instance; with no active instance it is a safe no-op. -/
def NotifyShaderProgramRelease (active : Option GLStateManager) (program : Nat) :
    Option GLStateManager :=
  match active with
  | none => none
  | some st => some (st.releaseShaderProgram program).1

/-- An intervening texture operation between a push block and a pop block:
either a unit selection or a bind on the active unit. -/
inductive TexOp where
  | select (layer : Fin numTextureLayers)
  | bindTex (target texture : Nat)

namespace GLStateManager

/-- Run a list of boolean `Set` operations in order. -/
def runStateSets (st : GLStateManager) : List (Nat × Bool) → GLStateManager
  | [] => st
  | kv :: rest => runStateSets (st.Set kv.1 kv.2).1 rest

/-- Push a list of boolean states in order. -/
def pushStates (st : GLStateManager) (ks : List Nat) : GLStateManager :=
  ks.foldl GLStateManager.PushState st

/-- Run a list of `BindBuffer` operations in order. -/
def runBufferBinds (st : GLStateManager) : List (Nat × Nat) → GLStateManager
  | [] => st
  | kv :: rest => runBufferBinds (st.BindBuffer kv.1 kv.2).1 rest

/-- Push a list of buffer targets in order. -/
def pushBoundBuffers (st : GLStateManager) (ks : List Nat) : GLStateManager :=
  ks.foldl GLStateManager.PushBoundBuffer st

/-- Pop `n` buffer scope entries in order. -/
def popBoundBuffersN (st : GLStateManager) : Nat → Except GLError GLStateManager
  | 0 => .ok st
  | n + 1 =>
    match st.PopBoundBuffer with
    | .error e => .error e
    | .ok (st1, _) => popBoundBuffersN st1 n

/-- Run a list of `BindFramebuffer` operations in order. -/
def runFramebufferBinds (st : GLStateManager) : List (Nat × Nat) → GLStateManager
  | [] => st
  | kv :: rest => runFramebufferBinds (st.BindFramebuffer kv.1 kv.2).1 rest

/-- Push a list of framebuffer targets in order. -/
def pushBoundFramebuffers (st : GLStateManager) (ks : List Nat) : GLStateManager :=
  ks.foldl GLStateManager.PushBoundFramebuffer st

/-- Pop `n` framebuffer scope entries in order. -/
def popBoundFramebuffersN (st : GLStateManager) : Nat → Except GLError GLStateManager
  | 0 => .ok st
  | n + 1 =>
    match st.PopBoundFramebuffer with
    | .error e => .error e
    | .ok (st1, _) => popBoundFramebuffersN st1 n

/-- Run a list of texture operations (unit selects and binds) in order. -/
def runTexOps (st : GLStateManager) : List TexOp → GLStateManager
  | [] => st
  | .select l :: rest => runTexOps (st.ActiveTextureFin l).1 rest
  | .bindTex t x :: rest => runTexOps (st.BindTexture t x).1 rest

/-- Push a list of (layer, target) texture keys in order. -/
def pushBoundTextures (st : GLStateManager) (ks : List (Fin numTextureLayers × Nat)) :
    GLStateManager :=
  ks.foldl (fun t k => t.PushBoundTextureFin k.1 k.2) st

/-- Pop `n` texture scope entries in order. -/
def popBoundTexturesN (st : GLStateManager) : Nat → Except GLError GLStateManager
  | 0 => .ok st
  | n + 1 =>
    match st.PopBoundTexture with
    | .error e => .error e
    | .ok (st1, _) => popBoundTexturesN st1 n

/-- Run a list of `BindShaderProgram` operations in order. -/
def runProgramBinds (st : GLStateManager) : List Nat → GLStateManager
  | [] => st
  | p :: rest => runProgramBinds (st.BindShaderProgram p).1 rest

/-- Push the shader program scope once per list entry. -/
def pushShaderPrograms (st : GLStateManager) (ks : List Unit) : GLStateManager :=
  ks.foldl (fun t _ => t.PushShaderProgram) st

/-- Pop `n` shader program scope entries in order. -/
def popShaderProgramsN (st : GLStateManager) : Nat → Except GLError GLStateManager
  | 0 => .ok st
  | n + 1 =>
    match st.PopShaderProgram with
    | .error e => .error e
    | .ok (st1, _) => popShaderProgramsN st1 n

end GLStateManager

/-- Number of unit-select (`glActiveTexture`) calls in a forwarded call list. -/
def countSelects (calls : List GLCall) : Nat :=
  calls.countP fun c =>
    match c with
    | .activeTexture _ => true
    | _ => false

/-- Number of texture bind (`glBindTexture`) calls in a forwarded call list. -/
def countTexBinds (calls : List GLCall) : Nat :=
  calls.countP fun c =>
    match c with
    | .bindTexture _ _ => true
    | _ => false

namespace DbgRenderSystem

/-- Machine `uint64_t` values wrap modulo this. -/
def u64Mod : Nat := 2 ^ 64

/-- `DbgRenderSystem::ValidateBufferBoundary(bufferSize, dataSize, dataOffset)`
(`DbgRenderSystem.cpp` lines 614-618): reports an `InvalidArgument` error
exactly when
`static_cast<std::uint64_t>(dataSize) + static_cast<std::uint64_t>(dataOffset)
> bufferSize`.  The `size_t` operands and the `uint64_t` buffer size are
machine integers below `2^64`; the C++ `uint64_t` addition wraps modulo
`2^64`, which the explicit reduction mirrors. -/
def ValidateBufferBoundary (bufferSize dataSize dataOffset : Nat) : Bool :=
  decide ((dataSize % u64Mod + dataOffset % u64Mod) % u64Mod > bufferSize % u64Mod)

/-- Observable outcome of `DbgRenderSystem::WriteBuffer`: the validation errors
raised through the debugger and the arguments forwarded to the wrapped render
system. -/
structure WriteBufferResult where
  initializedAfter : Bool
  boundaryError : Bool
  nullPointerError : Bool
  forwardedSize : Nat
  forwardedOffset : Nat
  deriving DecidableEq, Repr

/-- `DbgRenderSystem::WriteBuffer(buffer, data, dataSize, offset)`
(`DbgRenderSystem.cpp` lines 158-182): when a debugger is attached, the buffer
is marked initialized on a write at offset 0, the boundary is validated by
`ValidateBufferBoundary(bufferDbg.desc.size, dataSize, offset)`, and a null
`data` pointer is reported; in every case the write is forwarded unchanged to
`instance_->WriteBuffer`. -/
def WriteBuffer (debugger initialized : Bool) (bufferSize dataSize offset : Nat)
    (dataIsNull : Bool) : WriteBufferResult where
  initializedAfter := initialized || (debugger && decide (offset = 0))
  boundaryError := debugger && ValidateBufferBoundary bufferSize dataSize offset
  nullPointerError := debugger && dataIsNull
  forwardedSize := dataSize
  forwardedOffset := offset

end DbgRenderSystem

/-! ## Theorems -/

namespace SCache

variable {K V : Type} [DecidableEq K] [DecidableEq V]

theorem bind_stack (s : SCache K V) (k : K) (v : V) :
    ((s.bind k v).1).stack = s.stack := by
  unfold bind
  split <;> rfl

theorem bind_cache (s : SCache K V) (k : K) (v : V) :
    ((s.bind k v).1).cache = fun q => if q = k then v else s.cache q := by
  unfold bind
  split
  · next h =>
    funext q
    by_cases hq : q = k
    · simp [hq, h]
    · simp [hq]
  · rfl

theorem bind_of_cached (s : SCache K V) (k : K) (v : V) (h : s.cache k = v) :
    s.bind k v = (s, []) := by
  unfold bind
  simp [h]

theorem bind_of_ne (s : SCache K V) (k : K) (v : V) (h : s.cache k ≠ v) :
    (s.bind k v).2 = [(k, v)] ∧ ((s.bind k v).1).cache k = v ∧
    (∀ q, q ≠ k → ((s.bind k v).1).cache q = s.cache q) := by
  unfold bind
  rw [if_neg h]
  exact ⟨rfl, by simp, fun q hq => by simp [hq]⟩

theorem bindAll_stack (s : SCache K V) (bs : List (K × V)) :
    (s.bindAll bs).stack = s.stack := by
  induction bs generalizing s with
  | nil => rfl
  | cons kv rest ih =>
    show ((s.bind kv.1 kv.2).1.bindAll rest).stack = s.stack
    rw [ih, bind_stack]

omit [DecidableEq K] [DecidableEq V] in
theorem pushAll_cache (s : SCache K V) (ks : List K) :
    (s.pushAll ks).cache = s.cache := by
  induction ks generalizing s with
  | nil => rfl
  | cons k rest ih =>
    show ((s.push k).pushAll rest).cache = s.cache
    rw [ih]
    rfl

omit [DecidableEq K] [DecidableEq V] in
theorem pushAll_stack (s : SCache K V) (ks : List K) :
    (s.pushAll ks).stack = (ks.map fun k => (k, s.cache k)).reverse ++ s.stack := by
  induction ks generalizing s with
  | nil => rfl
  | cons k rest ih =>
    show ((s.push k).pushAll rest).stack = _
    rw [ih]
    simp [push]

theorem popN_spec (es : List (K × V)) (rest : List (K × V)) (s : SCache K V)
    (h : s.stack = es ++ rest) :
    ∃ t, s.popN es.length = .ok t ∧ t.stack = rest ∧
      t.cache = applyEntries s.cache es := by
  induction es generalizing s with
  | nil => exact ⟨s, rfl, by simpa using h, rfl⟩
  | cons kv es' ih =>
    obtain ⟨k, v⟩ := kv
    have hpop : s.pop = .ok (SCache.bind { s with stack := es' ++ rest } k v) := by
      unfold pop
      rw [h]
      rfl
    have hmid : ((SCache.bind { s with stack := es' ++ rest } k v).1).stack = es' ++ rest := by
      rw [bind_stack]
    obtain ⟨t, ht, hstack, hcache⟩ := ih _ hmid
    refine ⟨t, ?_, hstack, ?_⟩
    · show s.popN (es'.length + 1) = .ok t
      unfold popN
      rw [hpop]
      exact ht
    · rw [hcache, bind_cache]
      rfl

omit [DecidableEq V] in
theorem applyEntries_not_mem (c : K → V) (es : List (K × V)) (k : K)
    (h : k ∉ es.map Prod.fst) : applyEntries c es k = c k := by
  induction es generalizing c with
  | nil => rfl
  | cons kv es' ih =>
    have hk : k ≠ kv.1 := by
      intro hx
      exact h (by simp [hx])
    have h' : k ∉ es'.map Prod.fst := by
      intro hx
      exact h (by simp [hx])
    show applyEntries (fun q => if q = kv.1 then kv.2 else c q) es' k = c k
    rw [ih _ h']
    simp [hk]

omit [DecidableEq V] in
theorem applyEntries_saved (c : K → V) (f : K → V) (es : List (K × V)) (k : K)
    (hall : ∀ p ∈ es, p.2 = f p.1) (hmem : k ∈ es.map Prod.fst) :
    applyEntries c es k = f k := by
  induction es generalizing c with
  | nil => simp at hmem
  | cons kv es' ih =>
    show applyEntries (fun q => if q = kv.1 then kv.2 else c q) es' k = f k
    by_cases hmem' : k ∈ es'.map Prod.fst
    · exact ih _ (fun p hp => hall p (List.mem_cons_of_mem _ hp)) hmem'
    · have hk : k = kv.1 := by
        rcases List.mem_map.mp hmem with ⟨p, hp, hpk⟩
        rcases List.mem_cons.mp hp with hp1 | hp2
        · rw [← hpk, hp1]
        · exact absurd (List.mem_map.mpr ⟨p, hp2, hpk⟩) hmem'
      rw [applyEntries_not_mem _ _ _ hmem']
      have := hall kv (List.mem_cons_self kv es')
      simp [hk, this]

/-- Scope balance for the generic cache: any `n` pushes, then any interleaving
of binds, then `n` pops succeed and restore the stack and the cached values of
every pushed key to their values before the first push. -/
theorem scope_round_trip (s : SCache K V) (ks : List K) (mids : List (K × V)) :
    ∃ t, (((s.pushAll ks).bindAll mids).popN ks.length) = .ok t ∧
      t.stack = s.stack ∧ ∀ k ∈ ks, t.cache k = s.cache k := by
  have hstack : ((s.pushAll ks).bindAll mids).stack =
      ((ks.map fun k => (k, s.cache k)).reverse) ++ s.stack := by
    rw [bindAll_stack, pushAll_stack]
  have hlen : ((ks.map fun k => (k, s.cache k)).reverse).length = ks.length := by
    simp
  obtain ⟨t, ht, hst, hc⟩ := popN_spec _ _ _ hstack
  rw [hlen] at ht
  refine ⟨t, ht, hst, fun k hk => ?_⟩
  rw [hc]
  apply applyEntries_saved _ s.cache
  · intro p hp
    rw [List.mem_reverse, List.mem_map] at hp
    obtain ⟨q, _, hq⟩ := hp
    rw [← hq]
  · rw [List.map_reverse, List.mem_reverse, List.map_map]
    simpa using hk

theorem bind_cache_self (s : SCache K V) (k : K) (v : V) :
    ((s.bind k v).1).cache k = v := by
  rw [bind_cache]
  simp

end SCache

/-- C2: Bind idempotence.  For every single-slot bind operation of the cache
(boolean state, buffer target, framebuffer target, renderbuffer, vertex
array, shader program, texture cell on the active layer, indexed buffer cell
of `BindBufferBase`, sampler slot): a cached value equal to the requested
handle elides the Applier call and leaves cache and state untouched; a
differing cached value forwards exactly one Applier call and updates exactly
that slot to the handle.  Consequently binding the same handle to the same
slot twice in a row issues exactly one Applier call (one from the first bind
when the slot held something else, none from the second). -/
theorem bind_idempotence :
    ∀ (st : GLStateManager) (t b : Nat),
      (st.bufferState.cache t = b → st.BindBuffer t b = (st, [])) ∧
      (st.bufferState.cache t ≠ b →
        (st.BindBuffer t b).2 = [.bindBuffer t b] ∧
        ((st.BindBuffer t b).1).bufferState.cache t = b ∧
        (∀ q, q ≠ t → ((st.BindBuffer t b).1).bufferState.cache q = st.bufferState.cache q)) ∧
      ((((st.BindBuffer t b).1).BindBuffer t b).2 = []) ∧
      (st.bufferState.cache t ≠ b →
        ((st.BindBuffer t b).2 ++ (((st.BindBuffer t b).1).BindBuffer t b).2).length = 1) ∧
      (st.framebufferState.cache t = b → st.BindFramebuffer t b = (st, [])) ∧
      (st.framebufferState.cache t ≠ b →
        (st.BindFramebuffer t b).2 = [.bindFramebuffer t b] ∧
        ((st.BindFramebuffer t b).1).framebufferState.cache t = b) ∧
      ((((st.BindFramebuffer t b).1).BindFramebuffer t b).2 = []) ∧
      (∀ v : Bool, (st.renderState.cache t = v → st.Set t v = (st, [])) ∧
        (st.renderState.cache t ≠ v →
          (st.Set t v).2 = [.enableState t v] ∧ ((st.Set t v).1).renderState.cache t = v) ∧
        ((((st.Set t v).1).Set t v).2 = [])) ∧
      (st.renderbufferState = b → st.BindRenderbuffer b = (st, [])) ∧
      (st.renderbufferState ≠ b →
        st.BindRenderbuffer b =
          ({ st with renderbufferState := b }, [.bindRenderbuffer b])) ∧
      ((((st.BindRenderbuffer b).1).BindRenderbuffer b).2 = []) ∧
      (st.shaderState.cache () = b → st.BindShaderProgram b = (st, [])) ∧
      (st.shaderState.cache () ≠ b →
        (st.BindShaderProgram b).2 = [.useProgram b] ∧
        ((st.BindShaderProgram b).1).shaderState.cache () = b) ∧
      ((((st.BindShaderProgram b).1).BindShaderProgram b).2 = []) ∧
      (st.textureState.cache (st.activeTexture, t) = b → st.BindTexture t b = (st, [])) ∧
      (st.textureState.cache (st.activeTexture, t) ≠ b →
        (st.BindTexture t b).2 = [.bindTexture t b] ∧
        ((st.BindTexture t b).1).textureState.cache (st.activeTexture, t) = b) ∧
      ((((st.BindTexture t b).1).BindTexture t b).2 = []) ∧
      (st.vertexArrayState.boundVertexArray = b → st.BindVertexArray b = (st, [])) ∧
      (st.vertexArrayState.boundVertexArray ≠ b →
        (st.BindVertexArray b).2 = [.bindVertexArray b] ∧
        ((st.BindVertexArray b).1).vertexArrayState.boundVertexArray = b) ∧
      ((((st.BindVertexArray b).1).BindVertexArray b).2 = []) ∧
      (∀ i, (st.indexedBufferState t i = some b → st.BindBufferBase t i b = (st, [])) ∧
        (st.indexedBufferState t i ≠ some b →
          (st.BindBufferBase t i b).2 = [.bindBufferBase t i b] ∧
          ((st.BindBufferBase t i b).1).indexedBufferState t i = some b ∧
          (∀ t2 i2, ¬(t2 = t ∧ i2 = i) →
            ((st.BindBufferBase t i b).1).indexedBufferState t2 i2 =
              st.indexedBufferState t2 i2)) ∧
        ((((st.BindBufferBase t i b).1).BindBufferBase t i b).2 = [])) ∧
      (∀ h : t < numTextureLayers,
        (st.samplerState ⟨t, h⟩ = b → st.BindSampler t b = .ok (st, [])) ∧
        (st.samplerState ⟨t, h⟩ ≠ b →
          ∃ st1, st.BindSampler t b = .ok (st1, [.bindSampler t b]) ∧
            st1.samplerState ⟨t, h⟩ = b ∧
            (∀ l, l ≠ ⟨t, h⟩ → st1.samplerState l = st.samplerState l) ∧
            st1.BindSampler t b = .ok (st1, []))) := by
  intro st t b
  have hbuf := SCache.bind_cache_self st.bufferState t b
  have hfb := SCache.bind_cache_self st.framebufferState t b
  have hsh := SCache.bind_cache_self st.shaderState () b
  have htex := SCache.bind_cache_self st.textureState (st.activeTexture, t) b
  refine ⟨?_, ?_, ?_, ?_, ?_, ?_, ?_, ?_, ?_, ?_, ?_, ?_, ?_, ?_, ?_, ?_, ?_,
    ?_, ?_, ?_, ?_, ?_⟩
  · intro h
    simp [GLStateManager.BindBuffer, SCache.bind_of_cached _ _ _ h]
  · intro h
    obtain ⟨h1, h2, h3⟩ := SCache.bind_of_ne st.bufferState t b h
    exact ⟨by simp [GLStateManager.BindBuffer, h1], h2, h3⟩
  · simp [GLStateManager.BindBuffer, SCache.bind_of_cached _ _ _ hbuf]
  · intro h
    obtain ⟨h1, _, _⟩ := SCache.bind_of_ne st.bufferState t b h
    simp [GLStateManager.BindBuffer, h1, SCache.bind_of_cached _ _ _ hbuf]
  · intro h
    simp [GLStateManager.BindFramebuffer, SCache.bind_of_cached _ _ _ h]
  · intro h
    obtain ⟨h1, h2, _⟩ := SCache.bind_of_ne st.framebufferState t b h
    exact ⟨by simp [GLStateManager.BindFramebuffer, h1], h2⟩
  · simp [GLStateManager.BindFramebuffer, SCache.bind_of_cached _ _ _ hfb]
  · intro v
    have hrs := SCache.bind_cache_self st.renderState t v
    refine ⟨?_, ?_, ?_⟩
    · intro h
      simp [GLStateManager.Set, SCache.bind_of_cached _ _ _ h]
    · intro h
      obtain ⟨h1, h2, _⟩ := SCache.bind_of_ne st.renderState t v h
      exact ⟨by simp [GLStateManager.Set, h1], h2⟩
    · simp [GLStateManager.Set, SCache.bind_of_cached _ _ _ hrs]
  · intro h
    simp [GLStateManager.BindRenderbuffer, h]
  · intro h
    simp [GLStateManager.BindRenderbuffer, h]
  · by_cases h : st.renderbufferState = b <;>
      simp [GLStateManager.BindRenderbuffer, h]
  · intro h
    simp [GLStateManager.BindShaderProgram, SCache.bind_of_cached _ _ _ h]
  · intro h
    obtain ⟨h1, h2, _⟩ := SCache.bind_of_ne st.shaderState () b h
    exact ⟨by simp [GLStateManager.BindShaderProgram, h1], h2⟩
  · simp [GLStateManager.BindShaderProgram, SCache.bind_of_cached _ _ _ hsh]
  · intro h
    simp [GLStateManager.BindTexture, SCache.bind_of_cached _ _ _ h]
  · intro h
    obtain ⟨h1, h2, _⟩ := SCache.bind_of_ne st.textureState (st.activeTexture, t) b h
    exact ⟨by simp [GLStateManager.BindTexture, h1], h2⟩
  · have : ((st.BindTexture t b).1).activeTexture = st.activeTexture := rfl
    simp [GLStateManager.BindTexture, this, SCache.bind_of_cached _ _ _ htex]
  · intro h
    simp [GLStateManager.BindVertexArray, h]
  · intro h
    simp [GLStateManager.BindVertexArray, h]
  · by_cases h : st.vertexArrayState.boundVertexArray = b <;>
      simp [GLStateManager.BindVertexArray, h]
  · intro i
    refine ⟨?_, ?_, ?_⟩
    · intro h
      simp [GLStateManager.BindBufferBase, h]
    · intro h
      refine ⟨by simp [GLStateManager.BindBufferBase, h], ?_, ?_⟩
      · simp [GLStateManager.BindBufferBase, h]
      · intro t2 i2 hne
        simp [GLStateManager.BindBufferBase, h, hne]
    · by_cases h : st.indexedBufferState t i = some b
      · simp [GLStateManager.BindBufferBase, h]
      · have h1 : st.BindBufferBase t i b =
            ({ st with indexedBufferState := fun t2 i2 =>
              (if t2 = t ∧ i2 = i then some b else st.indexedBufferState t2 i2) },
             [.bindBufferBase t i b]) := by
          simp [GLStateManager.BindBufferBase, h]
        rw [h1]
        simp [GLStateManager.BindBufferBase]
  · intro h
    constructor
    · intro hc
      unfold GLStateManager.BindSampler
      rw [dif_pos h, if_pos hc]
    · intro hc
      have h1 : st.BindSampler t b =
          .ok ({ st with samplerState := fun l =>
              (if l = ⟨t, h⟩ then b else st.samplerState l) },
            [.bindSampler t b]) := by
        unfold GLStateManager.BindSampler
        rw [dif_pos h, if_neg hc]
      refine ⟨_, h1, ?_, ?_, ?_⟩
      · simp
      · intro l hl
        simp [hl]
      · unfold GLStateManager.BindSampler
        rw [dif_pos h, if_pos (by simp)]

/-- Witness for C2 at a concrete input: from the initial state (slot 2 holds
the unbound sentinel 0, not 7), binding buffer 7 to slot 2 twice in a row
issues exactly one Applier call, and likewise binding sampler 7 to layer 2
twice issues exactly one call (the second bind elides). -/
theorem bind_idempotence_witness :
    (((GLStateManager.initial.BindBuffer 2 7).2 ++
      (((GLStateManager.initial.BindBuffer 2 7).1).BindBuffer 2 7).2).length = 1) ∧
    ∃ st1, GLStateManager.initial.BindSampler 2 7 = .ok (st1, [.bindSampler 2 7]) ∧
      st1.BindSampler 2 7 = .ok (st1, []) := by
  constructor
  · exact ((bind_idempotence GLStateManager.initial 2 7).2.2.2.1) (by decide)
  · obtain ⟨-, -, -, -, -, -, -, -, -, -, -, -, -, -, -, -, -, -, -, -, -, hsam⟩ :=
      bind_idempotence GLStateManager.initial 2 7
    obtain ⟨st1, h1, h2, h3, h4⟩ := (hsam (by decide)).2 (by decide)
    exact ⟨st1, h1, h4⟩

/-- C4: Unbalanced pop is a reported fatal contract violation.  For every cache
kind, popping with an empty scope stack yields `Except.error .contractViolation`
instead of being silently ignored; since the error result carries no successor
state, the caller's cached binding state is left exactly as it was, so
subsequent operations are not corrupted.  `PopStates` with a positive count on
an empty boolean stack reports the same violation. -/
theorem unbalanced_pop :
    ∀ st : GLStateManager,
      (st.renderState.stack = [] →
        st.PopState = .error .contractViolation ∧
        ∀ n, 0 < n → st.PopStates n = .error .contractViolation) ∧
      (st.bufferState.stack = [] → st.PopBoundBuffer = .error .contractViolation) ∧
      (st.framebufferState.stack = [] → st.PopBoundFramebuffer = .error .contractViolation) ∧
      (st.textureState.stack = [] → st.PopBoundTexture = .error .contractViolation) ∧
      (st.shaderState.stack = [] → st.PopShaderProgram = .error .contractViolation) := by
  intro st
  refine ⟨?_, ?_, ?_, ?_, ?_⟩
  · intro h
    have hpop : st.PopState = .error .contractViolation := by
      unfold GLStateManager.PopState SCache.pop
      rw [h]
    refine ⟨hpop, ?_⟩
    intro n hn
    match n, hn with
    | n + 1, _ =>
      unfold GLStateManager.PopStates
      rw [hpop]
  · intro h
    unfold GLStateManager.PopBoundBuffer SCache.pop
    rw [h]
  · intro h
    unfold GLStateManager.PopBoundFramebuffer SCache.pop
    rw [h]
  · intro h
    unfold GLStateManager.PopBoundTexture
    rw [h]
  · intro h
    unfold GLStateManager.PopShaderProgram SCache.pop
    rw [h]

/-- Witness for C4 at a concrete input: in the initial state every scope stack
is empty, and every pop reports the contract violation. -/
theorem unbalanced_pop_witness :
    GLStateManager.initial.PopState = .error .contractViolation ∧
    GLStateManager.initial.PopStates 1 = .error .contractViolation ∧
    GLStateManager.initial.PopBoundBuffer = .error .contractViolation ∧
    GLStateManager.initial.PopBoundFramebuffer = .error .contractViolation ∧
    GLStateManager.initial.PopBoundTexture = .error .contractViolation ∧
    GLStateManager.initial.PopShaderProgram = .error .contractViolation :=
  ⟨((unbalanced_pop GLStateManager.initial).1 rfl).1,
   ((unbalanced_pop GLStateManager.initial).1 rfl).2 1 (by decide),
   (unbalanced_pop GLStateManager.initial).2.1 rfl,
   (unbalanced_pop GLStateManager.initial).2.2.1 rfl,
   (unbalanced_pop GLStateManager.initial).2.2.2.1 rfl,
   (unbalanced_pop GLStateManager.initial).2.2.2.2 rfl⟩

/-- C5: Viewport/scissor/depth-range array limit enforcement.  A range whose
end `first + count` exceeds the device-reported `maxViewports` limit is a
reported contract violation — nothing is applied and nothing is clamped (the
error result carries no successor state and no device call); a range within
the limit succeeds, leaving the state unchanged and forwarding one array
call. -/
theorem viewport_limit_enforcement :
    ∀ (st : GLStateManager) (first count : Nat),
      (st.limits.maxViewports < first + count →
        st.SetViewportArray first count = .error .contractViolation ∧
        st.SetScissorArray first count = .error .contractViolation ∧
        st.SetDepthRangeArray first count = .error .contractViolation) ∧
      (first + count ≤ st.limits.maxViewports →
        st.SetViewportArray first count = .ok (st, [.viewportArray first count]) ∧
        st.SetScissorArray first count = .ok (st, [.scissorArray first count]) ∧
        st.SetDepthRangeArray first count = .ok (st, [.depthRangeArray first count])) := by
  intro st first count
  constructor
  · intro h
    have ha : st.AssertViewportLimit first count = .error .contractViolation := by
      unfold GLStateManager.AssertViewportLimit
      rw [if_pos h]
    refine ⟨?_, ?_, ?_⟩ <;>
      simp [GLStateManager.SetViewportArray, GLStateManager.SetScissorArray,
        GLStateManager.SetDepthRangeArray, ha]
  · intro h
    have ha : st.AssertViewportLimit first count = .ok () := by
      unfold GLStateManager.AssertViewportLimit
      rw [if_neg (by omega)]
    refine ⟨?_, ?_, ?_⟩ <;>
      simp [GLStateManager.SetViewportArray, GLStateManager.SetScissorArray,
        GLStateManager.SetDepthRangeArray, ha]

/-- Witness for C5 at the specification's concrete example: against the
default device limit of 16, `setArray(first = 10, count = 10)` reports the
contract violation (20 > 16) while `setArray(first = 0, count = 16)`
succeeds. -/
theorem viewport_limit_enforcement_witness :
    GLStateManager.initial.SetViewportArray 10 10 = .error .contractViolation ∧
    GLStateManager.initial.SetViewportArray 0 16 =
      .ok (GLStateManager.initial, [.viewportArray 0 16]) :=
  ⟨((viewport_limit_enforcement GLStateManager.initial 10 10).1 (by decide)).1,
   ((viewport_limit_enforcement GLStateManager.initial 0 16).2 (by decide)).1⟩

/-- C8: A release notification with no active instance is a safe no-op: each
static notify function is a total function that, given no active instance,
designates no instance and changes no cache state; given an active instance it
routes the release scan to exactly that instance. -/
theorem release_notification_routing :
    (∀ b t, NotifyBufferRelease none b t = none) ∧
    (∀ st b t, NotifyBufferRelease (some st) b t = some (st.releaseBuffer b).1) ∧
    (∀ x t, NotifyTextureRelease none x t = none) ∧
    (∀ st x t, NotifyTextureRelease (some st) x t = some (st.releaseTexture x).1) ∧
    (∀ s, NotifySamplerRelease none s = none) ∧
    (∀ st s, NotifySamplerRelease (some st) s = some (st.releaseSampler s).1) ∧
    (∀ f, NotifyFramebufferRelease none f = none) ∧
    (∀ st f, NotifyFramebufferRelease (some st) f = some (st.releaseFramebuffer f).1) ∧
    (∀ p, NotifyShaderProgramRelease none p = none) ∧
    (∀ st p, NotifyShaderProgramRelease (some st) p = some (st.releaseShaderProgram p).1) :=
  ⟨fun _ _ => rfl, fun _ _ _ => rfl, fun _ _ => rfl, fun _ _ _ => rfl,
   fun _ => rfl, fun _ _ => rfl, fun _ => rfl, fun _ _ => rfl,
   fun _ => rfl, fun _ _ => rfl⟩

/-- C1: Handle-reuse safety.  Every release notification resets exactly those
slots/cells of its cache table(s) whose cached value equals the released
handle to the unbound sentinel 0, touches no other slot and no scope stack,
and issues no Applier call; consequently, for a nonzero handle `H` that was
cached in slot `S`, after the release a bind of `H` to `S` issues a real
Applier call instead of being elided — even though a fresh resource may have
been assigned the very same handle value. -/
theorem handle_reuse_safety :
    ∀ (st : GLStateManager) (H : Nat),
      ((st.releaseBuffer H).2 = [] ∧
        (∀ t, ((st.releaseBuffer H).1).bufferState.cache t =
          if st.bufferState.cache t = H then 0 else st.bufferState.cache t) ∧
        (∀ t i, ((st.releaseBuffer H).1).indexedBufferState t i =
          if st.indexedBufferState t i = some H then some 0 else st.indexedBufferState t i) ∧
        ((st.releaseBuffer H).1).bufferState.stack = st.bufferState.stack) ∧
      ((st.releaseTexture H).2 = [] ∧
        (∀ k, ((st.releaseTexture H).1).textureState.cache k =
          if st.textureState.cache k = H then 0 else st.textureState.cache k) ∧
        ((st.releaseTexture H).1).textureState.stack = st.textureState.stack) ∧
      ((st.releaseSampler H).2 = [] ∧
        (∀ l, ((st.releaseSampler H).1).samplerState l =
          if st.samplerState l = H then 0 else st.samplerState l)) ∧
      ((st.releaseFramebuffer H).2 = [] ∧
        (∀ t, ((st.releaseFramebuffer H).1).framebufferState.cache t =
          if st.framebufferState.cache t = H then 0 else st.framebufferState.cache t)) ∧
      ((st.releaseShaderProgram H).2 = [] ∧
        ((st.releaseShaderProgram H).1).shaderState.cache () =
          if st.shaderState.cache () = H then 0 else st.shaderState.cache ()) ∧
      (H ≠ 0 →
        (∀ S, st.bufferState.cache S = H →
          (((st.releaseBuffer H).1).BindBuffer S H).2 = [.bindBuffer S H]) ∧
        (∀ k : Fin numTextureLayers × Nat, st.textureState.cache k = H →
          ∃ st2 calls,
            ((st.releaseTexture H).1).BindTextureAt k.1.val k.2 H = .ok (st2, calls) ∧
            countTexBinds calls = 1 ∧ st2.textureState.cache k = H) ∧
        (∀ l : Fin numTextureLayers, st.samplerState l = H →
          ∃ st2, ((st.releaseSampler H).1).BindSampler l.val H =
            .ok (st2, [.bindSampler l.val H])) ∧
        (∀ t, st.framebufferState.cache t = H →
          (((st.releaseFramebuffer H).1).BindFramebuffer t H).2 = [.bindFramebuffer t H]) ∧
        (st.shaderState.cache () = H →
          (((st.releaseShaderProgram H).1).BindShaderProgram H).2 = [.useProgram H])) := by
  intro st H
  refine ⟨⟨rfl, fun _ => rfl, fun _ _ => rfl, rfl⟩,
    ⟨rfl, fun _ => rfl, rfl⟩, ⟨rfl, fun _ => rfl⟩, ⟨rfl, fun _ => rfl⟩, ⟨rfl, rfl⟩, ?_⟩
  intro hH
  have hzero : ∀ x : Nat, x = H → (if x = H then 0 else x) ≠ H := by
    intro x hx
    rw [if_pos hx]
    omega
  refine ⟨?_, ?_, ?_, ?_, ?_⟩
  · intro S hS
    obtain ⟨h1, _, _⟩ :=
      SCache.bind_of_ne ((st.releaseBuffer H).1).bufferState S H (hzero _ hS)
    simp [GLStateManager.BindBuffer, h1]
  · intro k hk
    set st' := (st.releaseTexture H).1 with hst'
    have hcell : st'.textureState.cache k ≠ H := hzero _ hk
    have hactive : st'.activeTexture = st.activeTexture := rfl
    have hA : st'.ActiveTexture k.1.val = .ok (st'.ActiveTextureFin k.1) := by
      unfold GLStateManager.ActiveTexture
      rw [dif_pos k.1.isLt]
    have hAstate : ((st'.ActiveTextureFin k.1).1).textureState = st'.textureState := by
      unfold GLStateManager.ActiveTextureFin
      split <;> rfl
    have hAactive : ((st'.ActiveTextureFin k.1).1).activeTexture = k.1 := by
      unfold GLStateManager.ActiveTextureFin
      split
      · next h => rw [← h]
      · rfl
    have hAsel : countTexBinds (st'.ActiveTextureFin k.1).2 = 0 := by
      unfold GLStateManager.ActiveTextureFin
      split <;> rfl
    set st1 := (st'.ActiveTextureFin k.1).1 with hst1
    have hcell1 : st1.textureState.cache (st1.activeTexture, k.2) ≠ H := by
      rw [hAstate, hAactive]
      have : (k.1, k.2) = k := rfl
      rw [this]
      exact hcell
    obtain ⟨h1, h2, _⟩ :=
      SCache.bind_of_ne st1.textureState (st1.activeTexture, k.2) H hcell1
    refine ⟨((st1.BindTexture k.2 H).1),
      (st'.ActiveTextureFin k.1).2 ++ (st1.BindTexture k.2 H).2, ?_, ?_, ?_⟩
    · unfold GLStateManager.BindTextureAt
      rw [hA]
    · show countTexBinds (_ ++ _) = 1
      unfold countSelects countTexBinds at *
      rw [List.countP_append, hAsel]
      have : (st1.BindTexture k.2 H).2 = [.bindTexture k.2 H] := by
        simp [GLStateManager.BindTexture, h1]
      rw [this]
      rfl
    · show ((st1.BindTexture k.2 H).1).textureState.cache k = H
      have : ((st1.BindTexture k.2 H).1).textureState =
          (st1.textureState.bind (st1.activeTexture, k.2) H).1 := rfl
      rw [this]
      have hk2 : (st1.activeTexture, k.2) = k := by
        rw [hAactive]
      rw [hk2]
      exact SCache.bind_cache_self _ _ _
  · intro l hl
    have hne : ((st.releaseSampler H).1).samplerState l ≠ H := hzero _ hl
    unfold GLStateManager.BindSampler
    rw [dif_pos l.isLt]
    have : (⟨l.val, l.isLt⟩ : Fin numTextureLayers) = l := rfl
    rw [this, if_neg hne]
    exact ⟨_, rfl⟩
  · intro t ht
    obtain ⟨h1, _, _⟩ :=
      SCache.bind_of_ne ((st.releaseFramebuffer H).1).framebufferState t H (hzero _ ht)
    simp [GLStateManager.BindFramebuffer, h1]
  · intro hp
    obtain ⟨h1, _, _⟩ :=
      SCache.bind_of_ne ((st.releaseShaderProgram H).1).shaderState () H (hzero _ hp)
    simp [GLStateManager.BindShaderProgram, h1]

/-- Witness for C1 at a concrete input: bind buffer 7 to slot 2, release
handle 7, bind 7 to slot 2 again — the second bind issues a real Applier call
instead of being elided. -/
theorem handle_reuse_safety_witness :
    ((((GLStateManager.initial.BindBuffer 2 7).1).releaseBuffer 7).1.BindBuffer 2 7).2 =
      [.bindBuffer 2 7] :=
  ((handle_reuse_safety (GLStateManager.initial.BindBuffer 2 7).1 7).2.2.2.2.2
    (by decide)).1 2 (by decide)

theorem countSelects_texbind_map (l : List ((Fin numTextureLayers × Nat) × Nat)) :
    countSelects (l.map fun kv => .bindTexture kv.1.2 kv.2) = 0 := by
  induction l with
  | nil => rfl
  | cons kv rest ih => simp [countSelects, List.countP_cons]

theorem countTexBinds_texbind_map (l : List ((Fin numTextureLayers × Nat) × Nat)) :
    countTexBinds (l.map fun kv => .bindTexture kv.1.2 kv.2) = l.length := by
  induction l with
  | nil => rfl
  | cons kv rest ih => simp [countTexBinds, List.countP_cons]

theorem BindTextureAt_eq (st : GLStateManager) (layer target texture : Nat)
    (h : layer < numTextureLayers) :
    st.BindTextureAt layer target texture =
      .ok (((st.ActiveTextureFin ⟨layer, h⟩).1.BindTexture target texture).1,
        (st.ActiveTextureFin ⟨layer, h⟩).2 ++
          ((st.ActiveTextureFin ⟨layer, h⟩).1.BindTexture target texture).2) := by
  unfold GLStateManager.BindTextureAt GLStateManager.ActiveTexture
  rw [dif_pos h]

theorem ActiveTextureFin_spec (st : GLStateManager) (l : Fin numTextureLayers) :
    ((st.ActiveTextureFin l).1).activeTexture = l ∧
    ((st.ActiveTextureFin l).1).textureState = st.textureState ∧
    countSelects (st.ActiveTextureFin l).2 = (if st.activeTexture = l then 0 else 1) ∧
    countTexBinds (st.ActiveTextureFin l).2 = 0 := by
  unfold GLStateManager.ActiveTextureFin
  by_cases h : st.activeTexture = l
  · rw [if_pos h]
    exact ⟨h, rfl, by rw [if_pos h]; rfl, rfl⟩
  · rw [if_neg h]
    exact ⟨rfl, rfl, by rw [if_neg h]; rfl, rfl⟩

/-- C6: Unit-select deduplication.  A texture bind at (unit, target) issues a
unit-select Applier call exactly when the requested unit differs from the
cached active unit, updates the cached active unit to the requested one, and
then follows the compare-and-maybe-forward rule on the (unit, target) cell;
therefore a second consecutive bind to the same unit issues no further
unit-select call, while both binds issue their bind call whenever their cell
value actually changes. -/
theorem unit_select_deduplication :
    ∀ (st : GLStateManager) (layer target texture : Nat)
      (h : layer < numTextureLayers),
      ∃ st1 calls1, st.BindTextureAt layer target texture = .ok (st1, calls1) ∧
        countSelects calls1 = (if st.activeTexture = ⟨layer, h⟩ then 0 else 1) ∧
        st1.activeTexture = ⟨layer, h⟩ ∧
        countTexBinds calls1 =
          (if st.textureState.cache (⟨layer, h⟩, target) = texture then 0 else 1) ∧
        st1.textureState.cache (⟨layer, h⟩, target) = texture ∧
        (∀ target2 texture2, ∃ st2 calls2,
          st1.BindTextureAt layer target2 texture2 = .ok (st2, calls2) ∧
          countSelects calls2 = 0 ∧
          (st1.textureState.cache (⟨layer, h⟩, target2) ≠ texture2 →
            countTexBinds calls2 = 1)) := by
  intro st layer target texture h
  obtain ⟨ha1, ha2, ha3, ha4⟩ := ActiveTextureFin_spec st ⟨layer, h⟩
  set stA := (st.ActiveTextureFin ⟨layer, h⟩).1 with hstA
  refine ⟨(stA.BindTexture target texture).1,
    (st.ActiveTextureFin ⟨layer, h⟩).2 ++ (stA.BindTexture target texture).2,
    BindTextureAt_eq st layer target texture h, ?_, ?_, ?_, ?_, ?_⟩
  · unfold countSelects at *
    rw [List.countP_append, ha3]
    have : (stA.BindTexture target texture).2 =
        (stA.textureState.bind (stA.activeTexture, target) texture).2.map
          (fun kv => .bindTexture kv.1.2 kv.2) := rfl
    rw [this]
    have := countSelects_texbind_map
      (stA.textureState.bind (stA.activeTexture, target) texture).2
    unfold countSelects at this
    rw [this]
    omega
  · show ((stA.BindTexture target texture).1).activeTexture = _
    have : ((stA.BindTexture target texture).1).activeTexture = stA.activeTexture := rfl
    rw [this, ha1]
  · unfold countTexBinds at *
    rw [List.countP_append, ha4]
    have hb : (stA.BindTexture target texture).2 =
        (stA.textureState.bind (stA.activeTexture, target) texture).2.map
          (fun kv => .bindTexture kv.1.2 kv.2) := rfl
    rw [hb]
    have hc := countTexBinds_texbind_map
      (stA.textureState.bind (stA.activeTexture, target) texture).2
    unfold countTexBinds at hc
    rw [hc]
    rw [ha2, ha1]
    by_cases hcell : st.textureState.cache (⟨layer, h⟩, target) = texture
    · rw [if_pos hcell, SCache.bind_of_cached _ _ _ hcell]
      rfl
    · rw [if_neg hcell, (SCache.bind_of_ne _ _ _ hcell).1]
      rfl
  · show ((stA.BindTexture target texture).1).textureState.cache _ = texture
    have : ((stA.BindTexture target texture).1).textureState =
        (stA.textureState.bind (stA.activeTexture, target) texture).1 := rfl
    rw [this, ha1]
    exact SCache.bind_cache_self _ _ _
  · intro target2 texture2
    set st1 := (stA.BindTexture target texture).1 with hst1
    have h1active : st1.activeTexture = ⟨layer, h⟩ := by
      have : st1.activeTexture = stA.activeTexture := rfl
      rw [this, ha1]
    have h1tex : st1.textureState =
        (stA.textureState.bind (stA.activeTexture, target) texture).1 := rfl
    obtain ⟨hb1, hb2, hb3, hb4⟩ := ActiveTextureFin_spec st1 ⟨layer, h⟩
    set stB := (st1.ActiveTextureFin ⟨layer, h⟩).1 with hstB
    refine ⟨(stB.BindTexture target2 texture2).1,
      (st1.ActiveTextureFin ⟨layer, h⟩).2 ++ (stB.BindTexture target2 texture2).2,
      BindTextureAt_eq st1 layer target2 texture2 h, ?_, ?_⟩
    · unfold countSelects at *
      rw [List.countP_append, hb3, if_pos h1active]
      have hb : (stB.BindTexture target2 texture2).2 =
          (stB.textureState.bind (stB.activeTexture, target2) texture2).2.map
            (fun kv => .bindTexture kv.1.2 kv.2) := rfl
      rw [hb]
      have hc := countSelects_texbind_map
        (stB.textureState.bind (stB.activeTexture, target2) texture2).2
      unfold countSelects at hc
      rw [hc]
    · intro hcell2
      unfold countTexBinds at *
      rw [List.countP_append, hb4]
      have hb : (stB.BindTexture target2 texture2).2 =
          (stB.textureState.bind (stB.activeTexture, target2) texture2).2.map
            (fun kv => .bindTexture kv.1.2 kv.2) := rfl
      rw [hb]
      have hc := countTexBinds_texbind_map
        (stB.textureState.bind (stB.activeTexture, target2) texture2).2
      unfold countTexBinds at hc
      rw [hc]
      rw [hb2, hb1]
      rw [(SCache.bind_of_ne _ _ _ hcell2).1]
      rfl

/-- Witness for C6 at a concrete input: from the initial state (active unit 0)
binding a texture at unit 3 issues one unit-select call, and a second
consecutive bind at unit 3 issues none. -/
theorem unit_select_deduplication_witness :
    ∃ st1 calls1, GLStateManager.initial.BindTextureAt 3 1 7 = .ok (st1, calls1) ∧
      countSelects calls1 = 1 ∧
      ∀ target2 texture2, ∃ st2 calls2,
        st1.BindTextureAt 3 target2 texture2 = .ok (st2, calls2) ∧
        countSelects calls2 = 0 := by
  obtain ⟨st1, calls1, h1, h2, h3, h4, h5, h6⟩ :=
    unit_select_deduplication GLStateManager.initial 3 1 7 (by decide)
  rw [if_neg (by decide)] at h2
  refine ⟨st1, calls1, h1, h2, fun target2 texture2 => ?_⟩
  obtain ⟨st2, calls2, g1, g2, g3⟩ := h6 target2 texture2
  exact ⟨st2, calls2, g1, g2⟩

/-- C7: Range-bind first-slot semantics of the indexed buffer cache.  For a
nonempty batch bind `BindBuffersBase(target, first, handles)`: exactly one
ranged Applier call is issued; afterwards the cache entry of the first slot
exactly equals the first handle (so a following single-slot bind of that
handle to `first` elides its call), the remaining slots of the range are
stale so that the next single-slot bind to any of them always issues a real
Applier call whatever handle it binds, and cache entries outside the range
and outside the category are untouched. -/
theorem range_bind_first_slot :
    ∀ (st : GLStateManager) (target first b : Nat) (rest : List Nat),
      (st.BindBuffersBase target first (b :: rest)).2 =
        [.bindBuffersBase target first (b :: rest)] ∧
      ((st.BindBuffersBase target first (b :: rest)).1).indexedBufferState target first =
        some b ∧
      (∀ i, 0 < i → i < (b :: rest).length →
        ((st.BindBuffersBase target first (b :: rest)).1).indexedBufferState
          target (first + i) = none ∧
        (∀ b2, (((st.BindBuffersBase target first (b :: rest)).1).BindBufferBase
          target (first + i) b2).2 = [.bindBufferBase target (first + i) b2])) ∧
      (∀ t i, t ≠ target →
        ((st.BindBuffersBase target first (b :: rest)).1).indexedBufferState t i =
          st.indexedBufferState t i) ∧
      (∀ i, i < first ∨ first + (b :: rest).length ≤ i →
        ((st.BindBuffersBase target first (b :: rest)).1).indexedBufferState target i =
          st.indexedBufferState target i) ∧
      (((st.BindBuffersBase target first (b :: rest)).1).BindBufferBase target first b).2 =
        [] := by
  intro st target first b rest
  have hcell : ∀ t i,
      ((st.BindBuffersBase target first (b :: rest)).1).indexedBufferState t i =
      (if t = target then
        (if i = first then some b
         else if first < i ∧ i < first + (b :: rest).length then none
         else st.indexedBufferState t i)
       else st.indexedBufferState t i) := fun t i => rfl
  have hfirst :
      ((st.BindBuffersBase target first (b :: rest)).1).indexedBufferState target first =
      some b := by
    rw [hcell]
    simp
  refine ⟨rfl, hfirst, ?_, ?_, ?_, ?_⟩
  · intro i hi hlen
    have hstale :
        ((st.BindBuffersBase target first (b :: rest)).1).indexedBufferState
          target (first + i) = none := by
      rw [hcell]
      rw [if_pos rfl, if_neg (by omega), if_pos (by omega)]
    refine ⟨hstale, fun b2 => ?_⟩
    unfold GLStateManager.BindBufferBase
    rw [if_neg (by rw [hstale]; exact fun hx => Option.noConfusion hx)]
  · intro t i ht
    rw [hcell, if_neg ht]
  · intro i hi
    rw [hcell, if_pos rfl]
    rcases hi with hlt | hge
    · rw [if_neg (by omega), if_neg (by omega)]
    · rw [List.length_cons] at hge
      have h1 : i ≠ first := by omega
      have h2 : ¬(first < i ∧ i < first + (b :: rest).length) := by
        rw [List.length_cons]
        omega
      rw [if_neg h1, if_neg h2]
  · unfold GLStateManager.BindBufferBase
    rw [if_pos hfirst]

/-- Witness for C7 at the specification's concrete example:
`bindRange(cat, first = 3, [A, B, C])` with A = 7, B = 8, C = 9, then
`bind(cat, 3, A)` elides the call, while `bind(cat, 4, B)` issues a real
call (slot 4 is stale under the documented policy). -/
theorem range_bind_first_slot_witness :
    ((((GLStateManager.initial.BindBuffersBase 5 3 [7, 8, 9]).1).BindBufferBase 5 3 7).2 =
      []) ∧
    ((((GLStateManager.initial.BindBuffersBase 5 3 [7, 8, 9]).1).BindBufferBase 5 4 8).2 =
      [.bindBufferBase 5 4 8]) :=
  ⟨(range_bind_first_slot GLStateManager.initial 5 3 7 [8, 9]).2.2.2.2.2,
   (((range_bind_first_slot GLStateManager.initial 5 3 7 [8, 9]).2.2.1 1
      (by decide) (by decide)).2 8)⟩

/-- C9: Fixed texture-unit capacity of 32.  `numTextureLayers` is the
compile-time constant 32; the texture binding matrix and the sampler table are
total exactly on layer indices below it (their domain is `Fin
numTextureLayers`, independent of the device-reported `limits` field of the
state, over which this theorem quantifies), and every operation taking a
unit/layer index is defined precisely for indices strictly below 32: at 32 or
above the access falls outside the fixed arrays and the operation yields the
out-of-bounds error, and range operations fail as soon as `first + count`
exceeds 32. -/
theorem fixed_texture_unit_capacity :
    numTextureLayers = 32 ∧
    (∀ (st : GLStateManager) (layer : Nat), numTextureLayers ≤ layer →
      st.ActiveTexture layer = .error .outOfBounds ∧
      (∀ t x, st.BindTextureAt layer t x = .error .outOfBounds) ∧
      (∀ t, st.PushBoundTexture layer t = .error .outOfBounds) ∧
      (∀ s, st.BindSampler layer s = .error .outOfBounds)) ∧
    (∀ (st : GLStateManager) (first : Nat) (entries : List (Nat × Nat)),
      numTextureLayers < first + entries.length →
      st.BindTextures first entries = .error .outOfBounds) ∧
    (∀ (st : GLStateManager) (first : Nat) (samplers : List Nat),
      numTextureLayers < first + samplers.length →
      st.BindSamplers first samplers = .error .outOfBounds) ∧
    (∀ (st : GLStateManager) (layer : Nat), layer < numTextureLayers →
      (∃ r, st.ActiveTexture layer = .ok r) ∧
      (∀ t, ∃ r, st.PushBoundTexture layer t = .ok r) ∧
      (∀ s, ∃ r, st.BindSampler layer s = .ok r)) := by
  refine ⟨rfl, ?_, ?_, ?_, ?_⟩
  · intro st layer hlayer
    have hnot : ¬ layer < numTextureLayers := by omega
    have hact : st.ActiveTexture layer = .error .outOfBounds := by
      unfold GLStateManager.ActiveTexture
      rw [dif_neg hnot]
    refine ⟨hact, ?_, ?_, ?_⟩
    · intro t x
      unfold GLStateManager.BindTextureAt
      rw [hact]
    · intro t
      unfold GLStateManager.PushBoundTexture
      rw [dif_neg hnot]
    · intro s
      unfold GLStateManager.BindSampler
      rw [dif_neg hnot]
  · intro st first entries hover
    unfold GLStateManager.BindTextures
    rw [if_neg (by omega)]
  · intro st first samplers hover
    unfold GLStateManager.BindSamplers
    rw [if_neg (by omega)]
  · intro st layer hlayer
    refine ⟨?_, ?_, ?_⟩
    · unfold GLStateManager.ActiveTexture
      rw [dif_pos hlayer]
      exact ⟨_, rfl⟩
    · intro t
      unfold GLStateManager.PushBoundTexture
      rw [dif_pos hlayer]
      exact ⟨_, rfl⟩
    · intro s
      unfold GLStateManager.BindSampler
      rw [dif_pos hlayer]
      by_cases hc : st.samplerState ⟨layer, hlayer⟩ = s
      · rw [if_pos hc]
        exact ⟨_, rfl⟩
      · rw [if_neg hc]
        exact ⟨_, rfl⟩

/-- Witness for C9 at concrete inputs: layer 32 is rejected, layer 31 is
accepted, and a sampler range ending past 32 is rejected. -/
theorem fixed_texture_unit_capacity_witness :
    GLStateManager.initial.ActiveTexture 32 = .error .outOfBounds ∧
    (∃ r, GLStateManager.initial.ActiveTexture 31 = .ok r) ∧
    GLStateManager.initial.BindSamplers 30 [1, 2, 3] = .error .outOfBounds :=
  ⟨((fixed_texture_unit_capacity.2.1 GLStateManager.initial 32 (by decide)).1),
   (fixed_texture_unit_capacity.2.2.2.2 GLStateManager.initial 31 (by decide)).1,
   fixed_texture_unit_capacity.2.2.2.1 GLStateManager.initial 30 [1, 2, 3] (by decide)⟩

/-- C10 counterexample: the claim that the boundary comparison is exact and
cannot wrap fails for 64-bit `size_t` inputs.  `static_cast<std::uint64_t>` is
the identity on a 64-bit `size_t`, so the `uint64_t` addition in
`ValidateBufferBoundary` wraps modulo `2^64`: writing `dataSize = 2^64 - 1`
bytes at offset 2 into a 10-byte buffer is mathematically far out of bounds,
yet the computed sum wraps to 1 and no out-of-bounds error is reported. -/
theorem buffer_boundary_wrap_counterexample :
    (DbgRenderSystem.WriteBuffer true true 10 (2 ^ 64 - 1) 2 false).boundaryError =
      false ∧
    2 ^ 64 - 1 + 2 > 10 := by
  constructor
  · rfl
  · decide

/-- C10 (amended): when a debugger is attached, `DbgRenderSystem::WriteBuffer`
reports an out-of-bounds error if and only if `dataSize + dataOffset >
bufferSize`, provided the mathematical sum `dataSize + dataOffset` is below
`2^64` (always the case when `size_t` is narrower than 64 bits, where the
widening makes the addition exact; with a 64-bit `size_t` the `uint64_t`
addition can wrap); without a debugger no boundary error is reported; and in
every case the write is forwarded unchanged to the wrapped render system. -/
theorem buffer_boundary_validation :
    ∀ (debugger initialized : Bool) (bufferSize dataSize offset : Nat)
      (dataIsNull : Bool),
      (DbgRenderSystem.WriteBuffer debugger initialized bufferSize dataSize offset
        dataIsNull).forwardedSize = dataSize ∧
      (DbgRenderSystem.WriteBuffer debugger initialized bufferSize dataSize offset
        dataIsNull).forwardedOffset = offset ∧
      (DbgRenderSystem.WriteBuffer false initialized bufferSize dataSize offset
        dataIsNull).boundaryError = false ∧
      (bufferSize < 2 ^ 64 → dataSize + offset < 2 ^ 64 →
        ((DbgRenderSystem.WriteBuffer true initialized bufferSize dataSize offset
          dataIsNull).boundaryError = true ↔ dataSize + offset > bufferSize)) := by
  intro debugger initialized bufferSize dataSize offset dataIsNull
  refine ⟨rfl, rfl, rfl, ?_⟩
  intro hbuf hsum
  have hmod : DbgRenderSystem.u64Mod = 2 ^ 64 := rfl
  have hd : dataSize % DbgRenderSystem.u64Mod = dataSize := by
    rw [hmod]
    exact Nat.mod_eq_of_lt (by omega)
  have ho : offset % DbgRenderSystem.u64Mod = offset := by
    rw [hmod]
    exact Nat.mod_eq_of_lt (by omega)
  have hb : bufferSize % DbgRenderSystem.u64Mod = bufferSize := by
    rw [hmod]
    exact Nat.mod_eq_of_lt hbuf
  show (true && DbgRenderSystem.ValidateBufferBoundary bufferSize dataSize offset)
      = true ↔ _
  unfold DbgRenderSystem.ValidateBufferBoundary
  rw [hd, ho, hb]
  have hs : (dataSize + offset) % DbgRenderSystem.u64Mod = dataSize + offset := by
    rw [hmod]
    exact Nat.mod_eq_of_lt hsum
  rw [hs]
  simp

/-- Witness for the amended C10 at a concrete input: a 110-byte write into a
100-byte buffer with the debugger attached reports the boundary error. -/
theorem buffer_boundary_validation_witness :
    (DbgRenderSystem.WriteBuffer true false 100 50 60 false).boundaryError = true :=
  ((buffer_boundary_validation true false 100 50 60 false).2.2.2
    (by decide) (by decide)).mpr (by decide)

namespace GLStateManager

theorem pushStates_renderState (ks : List Nat) (st : GLStateManager) :
    (st.pushStates ks).renderState = st.renderState.pushAll ks := by
  induction ks generalizing st with
  | nil => rfl
  | cons k rest ih =>
    show ((st.PushState k).pushStates rest).renderState = _
    rw [ih]
    rfl

theorem runStateSets_renderState (ms : List (Nat × Bool)) (st : GLStateManager) :
    (st.runStateSets ms).renderState = st.renderState.bindAll ms := by
  induction ms generalizing st with
  | nil => rfl
  | cons kv rest ih =>
    show (((st.Set kv.1 kv.2).1).runStateSets rest).renderState = _
    rw [ih]
    rfl

theorem PopStates_bridge :
    ∀ (n : Nat) (st : GLStateManager) (c : SCache Nat Bool),
      st.renderState.popN n = .ok c →
      ∃ calls, st.PopStates n = .ok ({ st with renderState := c }, calls) := by
  intro n
  induction n with
  | zero =>
    intro st c hc
    simp only [SCache.popN, Except.ok.injEq] at hc
    subst hc
    exact ⟨[], rfl⟩
  | succ n ih =>
    intro st c hc
    unfold SCache.popN at hc
    cases hp : st.renderState.pop with
    | error e =>
      rw [hp] at hc
      exact absurd hc (by simp)
    | ok pr =>
      rw [hp] at hc
      have hps : st.PopState =
          .ok ({ st with renderState := pr.1 },
            pr.2.map fun kv => .enableState kv.1 kv.2) := by
        unfold GLStateManager.PopState
        rw [hp]
      obtain ⟨calls2, h2⟩ := ih { st with renderState := pr.1 } c hc
      refine ⟨(pr.2.map fun kv => GLCall.enableState kv.1 kv.2) ++ calls2, ?_⟩
      show st.PopStates (n + 1) = _
      unfold GLStateManager.PopStates
      simp only [hps, h2]

theorem pushBoundBuffers_bufferState (ks : List Nat) (st : GLStateManager) :
    (st.pushBoundBuffers ks).bufferState = st.bufferState.pushAll ks := by
  induction ks generalizing st with
  | nil => rfl
  | cons k rest ih =>
    show ((st.PushBoundBuffer k).pushBoundBuffers rest).bufferState = _
    rw [ih]
    rfl

theorem runBufferBinds_bufferState (ms : List (Nat × Nat)) (st : GLStateManager) :
    (st.runBufferBinds ms).bufferState = st.bufferState.bindAll ms := by
  induction ms generalizing st with
  | nil => rfl
  | cons kv rest ih =>
    show (((st.BindBuffer kv.1 kv.2).1).runBufferBinds rest).bufferState = _
    rw [ih]
    rfl

theorem popBoundBuffersN_bridge :
    ∀ (n : Nat) (st : GLStateManager) (c : SCache Nat Nat),
      st.bufferState.popN n = .ok c →
      st.popBoundBuffersN n = .ok { st with bufferState := c } := by
  intro n
  induction n with
  | zero =>
    intro st c hc
    simp only [SCache.popN, Except.ok.injEq] at hc
    subst hc
    rfl
  | succ n ih =>
    intro st c hc
    unfold SCache.popN at hc
    cases hp : st.bufferState.pop with
    | error e =>
      rw [hp] at hc
      exact absurd hc (by simp)
    | ok pr =>
      rw [hp] at hc
      have hps : st.PopBoundBuffer =
          .ok ({ st with bufferState := pr.1 },
            pr.2.map fun kv => .bindBuffer kv.1 kv.2) := by
        unfold GLStateManager.PopBoundBuffer
        rw [hp]
      have h2 := ih { st with bufferState := pr.1 } c hc
      show st.popBoundBuffersN (n + 1) = _
      unfold GLStateManager.popBoundBuffersN
      simp only [hps, h2]

theorem pushBoundFramebuffers_framebufferState (ks : List Nat) (st : GLStateManager) :
    (st.pushBoundFramebuffers ks).framebufferState = st.framebufferState.pushAll ks := by
  induction ks generalizing st with
  | nil => rfl
  | cons k rest ih =>
    show ((st.PushBoundFramebuffer k).pushBoundFramebuffers rest).framebufferState = _
    rw [ih]
    rfl

theorem runFramebufferBinds_framebufferState (ms : List (Nat × Nat)) (st : GLStateManager) :
    (st.runFramebufferBinds ms).framebufferState = st.framebufferState.bindAll ms := by
  induction ms generalizing st with
  | nil => rfl
  | cons kv rest ih =>
    show (((st.BindFramebuffer kv.1 kv.2).1).runFramebufferBinds rest).framebufferState = _
    rw [ih]
    rfl

theorem popBoundFramebuffersN_bridge :
    ∀ (n : Nat) (st : GLStateManager) (c : SCache Nat Nat),
      st.framebufferState.popN n = .ok c →
      st.popBoundFramebuffersN n = .ok { st with framebufferState := c } := by
  intro n
  induction n with
  | zero =>
    intro st c hc
    simp only [SCache.popN, Except.ok.injEq] at hc
    subst hc
    rfl
  | succ n ih =>
    intro st c hc
    unfold SCache.popN at hc
    cases hp : st.framebufferState.pop with
    | error e =>
      rw [hp] at hc
      exact absurd hc (by simp)
    | ok pr =>
      rw [hp] at hc
      have hps : st.PopBoundFramebuffer =
          .ok ({ st with framebufferState := pr.1 },
            pr.2.map fun kv => .bindFramebuffer kv.1 kv.2) := by
        unfold GLStateManager.PopBoundFramebuffer
        rw [hp]
      have h2 := ih { st with framebufferState := pr.1 } c hc
      show st.popBoundFramebuffersN (n + 1) = _
      unfold GLStateManager.popBoundFramebuffersN
      simp only [hps, h2]

theorem pushShaderPrograms_shaderState (ks : List Unit) (st : GLStateManager) :
    (st.pushShaderPrograms ks).shaderState = st.shaderState.pushAll ks := by
  induction ks generalizing st with
  | nil => rfl
  | cons k rest ih =>
    show ((st.PushShaderProgram).pushShaderPrograms rest).shaderState = _
    rw [ih]
    rfl

theorem runProgramBinds_shaderState (ps : List Nat) (st : GLStateManager) :
    (st.runProgramBinds ps).shaderState =
      st.shaderState.bindAll (ps.map fun p => ((), p)) := by
  induction ps generalizing st with
  | nil => rfl
  | cons p rest ih =>
    show (((st.BindShaderProgram p).1).runProgramBinds rest).shaderState = _
    rw [ih]
    rfl

theorem popShaderProgramsN_bridge :
    ∀ (n : Nat) (st : GLStateManager) (c : SCache Unit Nat),
      st.shaderState.popN n = .ok c →
      st.popShaderProgramsN n = .ok { st with shaderState := c } := by
  intro n
  induction n with
  | zero =>
    intro st c hc
    simp only [SCache.popN, Except.ok.injEq] at hc
    subst hc
    rfl
  | succ n ih =>
    intro st c hc
    unfold SCache.popN at hc
    cases hp : st.shaderState.pop with
    | error e =>
      rw [hp] at hc
      exact absurd hc (by simp)
    | ok pr =>
      rw [hp] at hc
      have hps : st.PopShaderProgram =
          .ok ({ st with shaderState := pr.1 },
            pr.2.map fun kv => .useProgram kv.2) := by
        unfold GLStateManager.PopShaderProgram
        rw [hp]
      have h2 := ih { st with shaderState := pr.1 } c hc
      show st.popShaderProgramsN (n + 1) = _
      unfold GLStateManager.popShaderProgramsN
      simp only [hps, h2]

theorem pushBoundTextures_textureState (ks : List (Fin numTextureLayers × Nat))
    (st : GLStateManager) :
    (st.pushBoundTextures ks).textureState = st.textureState.pushAll ks := by
  induction ks generalizing st with
  | nil => rfl
  | cons k rest ih =>
    show ((st.PushBoundTextureFin k.1 k.2).pushBoundTextures rest).textureState = _
    rw [ih]
    rfl

theorem runTexOps_textureState (ops : List TexOp) (st : GLStateManager) :
    ∃ bs, (st.runTexOps ops).textureState = st.textureState.bindAll bs := by
  induction ops generalizing st with
  | nil => exact ⟨[], rfl⟩
  | cons op rest ih =>
    cases op with
    | select l =>
      obtain ⟨bs, h⟩ := ih (st.ActiveTextureFin l).1
      refine ⟨bs, ?_⟩
      show (((st.ActiveTextureFin l).1).runTexOps rest).textureState = _
      rw [h, (ActiveTextureFin_spec st l).2.1]
    | bindTex t x =>
      obtain ⟨bs, h⟩ := ih (st.BindTexture t x).1
      refine ⟨((st.activeTexture, t), x) :: bs, ?_⟩
      show (((st.BindTexture t x).1).runTexOps rest).textureState = _
      rw [h]
      rfl

theorem popBoundTexturesN_bridge :
    ∀ (n : Nat) (st : GLStateManager) (c : SCache (Fin numTextureLayers × Nat) Nat),
      st.textureState.popN n = .ok c →
      ∃ a, st.popBoundTexturesN n =
        .ok { st with activeTexture := a, textureState := c } := by
  intro n
  induction n with
  | zero =>
    intro st c hc
    simp only [SCache.popN, Except.ok.injEq] at hc
    subst hc
    exact ⟨st.activeTexture, rfl⟩
  | succ n ih =>
    intro st c hc
    unfold SCache.popN at hc
    cases hp : st.textureState.pop with
    | error e =>
      rw [hp] at hc
      exact absurd hc (by simp)
    | ok pr =>
      rw [hp] at hc
      unfold SCache.pop at hp
      cases hstack : st.textureState.stack with
      | nil =>
        rw [hstack] at hp
        exact absurd hp (by simp)
      | cons kv rest =>
        rw [hstack] at hp
        simp only [Except.ok.injEq] at hp
        have hps : st.PopBoundTexture =
            .ok ({ st with activeTexture := kv.1.1, textureState := pr.1 },
              (if st.activeTexture = kv.1.1 then ([] : List GLCall)
               else [.activeTexture kv.1.1.val]) ++
                ((SCache.bind ⟨st.textureState.cache, rest⟩ kv.1 kv.2).2.map
                  fun p => .bindTexture p.1.2 p.2)) := by
          unfold GLStateManager.PopBoundTexture
          rw [hstack]
          rw [← hp]
        obtain ⟨a, h2⟩ := ih { st with activeTexture := kv.1.1, textureState := pr.1 } c hc
        refine ⟨a, ?_⟩
        show st.popBoundTexturesN (n + 1) = _
        unfold GLStateManager.popBoundTexturesN
        simp only [hps, h2]

end GLStateManager

/-- C3: Scope balance round-trip.  For each cache kind (boolean states,
buffers, framebuffers, textures, shader programs): a block of pushes, followed
by any interleaving of that kind's bind/set operations, followed by an equal
number of pops, always succeeds and restores both the scope stack and the
cached value of every pushed key to their values before the first push; and a
single pop restores exactly the most recently pushed entry's saved previous
value, forwarded through the normal deduplicated set/bind path (a pop is
observably the corresponding bind of the saved value on the state with the
entry removed). -/
theorem scope_balance :
    (∀ (st : GLStateManager) (ks : List Nat) (ms : List (Nat × Bool)),
      ∃ stf calls,
        ((st.pushStates ks).runStateSets ms).PopStates ks.length = .ok (stf, calls) ∧
        stf.renderState.stack = st.renderState.stack ∧
        ∀ k ∈ ks, stf.renderState.cache k = st.renderState.cache k) ∧
    (∀ (st : GLStateManager) (k : Nat) (v : Bool) (rest : List (Nat × Bool)),
      st.renderState.stack = (k, v) :: rest →
      st.PopState =
        .ok (({ st with renderState := ⟨st.renderState.cache, rest⟩ }).Set k v)) ∧
    (∀ (st : GLStateManager) (ks : List Nat) (ms : List (Nat × Nat)),
      ∃ stf,
        ((st.pushBoundBuffers ks).runBufferBinds ms).popBoundBuffersN ks.length =
          .ok stf ∧
        stf.bufferState.stack = st.bufferState.stack ∧
        ∀ k ∈ ks, stf.bufferState.cache k = st.bufferState.cache k) ∧
    (∀ (st : GLStateManager) (k b : Nat) (rest : List (Nat × Nat)),
      st.bufferState.stack = (k, b) :: rest →
      st.PopBoundBuffer =
        .ok (({ st with bufferState := ⟨st.bufferState.cache, rest⟩ }).BindBuffer k b)) ∧
    (∀ (st : GLStateManager) (ks : List Nat) (ms : List (Nat × Nat)),
      ∃ stf,
        ((st.pushBoundFramebuffers ks).runFramebufferBinds ms).popBoundFramebuffersN
          ks.length = .ok stf ∧
        stf.framebufferState.stack = st.framebufferState.stack ∧
        ∀ k ∈ ks, stf.framebufferState.cache k = st.framebufferState.cache k) ∧
    (∀ (st : GLStateManager) (k f : Nat) (rest : List (Nat × Nat)),
      st.framebufferState.stack = (k, f) :: rest →
      st.PopBoundFramebuffer =
        .ok (({ st with framebufferState := ⟨st.framebufferState.cache, rest⟩
          }).BindFramebuffer k f)) ∧
    (∀ (st : GLStateManager) (ks : List (Fin numTextureLayers × Nat))
        (ops : List TexOp),
      ∃ stf,
        ((st.pushBoundTextures ks).runTexOps ops).popBoundTexturesN ks.length =
          .ok stf ∧
        stf.textureState.stack = st.textureState.stack ∧
        ∀ k ∈ ks, stf.textureState.cache k = st.textureState.cache k) ∧
    (∀ (st : GLStateManager) (k : Fin numTextureLayers × Nat) (tex : Nat)
        (rest : List ((Fin numTextureLayers × Nat) × Nat)),
      st.textureState.stack = (k, tex) :: rest →
      st.PopBoundTexture =
        ({ st with textureState := ⟨st.textureState.cache, rest⟩
          }).BindTextureAt k.1.val k.2 tex) ∧
    (∀ (st : GLStateManager) (ks : List Unit) (ps : List Nat),
      ∃ stf,
        ((st.pushShaderPrograms ks).runProgramBinds ps).popShaderProgramsN
          ks.length = .ok stf ∧
        stf.shaderState.stack = st.shaderState.stack ∧
        (ks ≠ [] → stf.shaderState.cache () = st.shaderState.cache ())) ∧
    (∀ (st : GLStateManager) (p : Nat) (rest : List (Unit × Nat)),
      st.shaderState.stack = ((), p) :: rest →
      st.PopShaderProgram =
        .ok (({ st with shaderState := ⟨st.shaderState.cache, rest⟩
          }).BindShaderProgram p)) := by
  refine ⟨?_, ?_, ?_, ?_, ?_, ?_, ?_, ?_, ?_, ?_⟩
  · intro st ks ms
    obtain ⟨t, ht, hst, hc⟩ := SCache.scope_round_trip st.renderState ks ms
    have hproj : ((st.pushStates ks).runStateSets ms).renderState =
        (st.renderState.pushAll ks).bindAll ms := by
      rw [GLStateManager.runStateSets_renderState, GLStateManager.pushStates_renderState]
    have hpop : ((st.pushStates ks).runStateSets ms).renderState.popN ks.length =
        .ok t := by
      rw [hproj]
      exact ht
    obtain ⟨calls, hps⟩ :=
      GLStateManager.PopStates_bridge ks.length ((st.pushStates ks).runStateSets ms)
        t hpop
    exact ⟨_, calls, hps, hst, hc⟩
  · intro st k v rest hstack
    unfold GLStateManager.PopState SCache.pop
    rw [hstack]
    rfl
  · intro st ks ms
    obtain ⟨t, ht, hst, hc⟩ := SCache.scope_round_trip st.bufferState ks ms
    have hproj : ((st.pushBoundBuffers ks).runBufferBinds ms).bufferState =
        (st.bufferState.pushAll ks).bindAll ms := by
      rw [GLStateManager.runBufferBinds_bufferState,
        GLStateManager.pushBoundBuffers_bufferState]
    have hpop : ((st.pushBoundBuffers ks).runBufferBinds ms).bufferState.popN
        ks.length = .ok t := by
      rw [hproj]
      exact ht
    have hps :=
      GLStateManager.popBoundBuffersN_bridge ks.length
        ((st.pushBoundBuffers ks).runBufferBinds ms) t hpop
    exact ⟨_, hps, hst, hc⟩
  · intro st k b rest hstack
    unfold GLStateManager.PopBoundBuffer SCache.pop
    rw [hstack]
    rfl
  · intro st ks ms
    obtain ⟨t, ht, hst, hc⟩ := SCache.scope_round_trip st.framebufferState ks ms
    have hproj : ((st.pushBoundFramebuffers ks).runFramebufferBinds ms).framebufferState =
        (st.framebufferState.pushAll ks).bindAll ms := by
      rw [GLStateManager.runFramebufferBinds_framebufferState,
        GLStateManager.pushBoundFramebuffers_framebufferState]
    have hpop :
        ((st.pushBoundFramebuffers ks).runFramebufferBinds ms).framebufferState.popN
          ks.length = .ok t := by
      rw [hproj]
      exact ht
    have hps :=
      GLStateManager.popBoundFramebuffersN_bridge ks.length
        ((st.pushBoundFramebuffers ks).runFramebufferBinds ms) t hpop
    exact ⟨_, hps, hst, hc⟩
  · intro st k f rest hstack
    unfold GLStateManager.PopBoundFramebuffer SCache.pop
    rw [hstack]
    rfl
  · intro st ks ops
    obtain ⟨bs, hbs⟩ :=
      GLStateManager.runTexOps_textureState ops (st.pushBoundTextures ks)
    obtain ⟨t, ht, hst, hc⟩ := SCache.scope_round_trip st.textureState ks bs
    have hproj : ((st.pushBoundTextures ks).runTexOps ops).textureState =
        (st.textureState.pushAll ks).bindAll bs := by
      rw [hbs, GLStateManager.pushBoundTextures_textureState]
    have hpop : ((st.pushBoundTextures ks).runTexOps ops).textureState.popN
        ks.length = .ok t := by
      rw [hproj]
      exact ht
    obtain ⟨a, hps⟩ :=
      GLStateManager.popBoundTexturesN_bridge ks.length
        ((st.pushBoundTextures ks).runTexOps ops) t hpop
    exact ⟨_, hps, hst, hc⟩
  · intro st k tex rest hstack
    rw [BindTextureAt_eq _ k.1.val k.2 tex k.1.isLt]
    unfold GLStateManager.PopBoundTexture
    rw [hstack]
    unfold GLStateManager.ActiveTextureFin GLStateManager.BindTexture
    by_cases hsel : st.activeTexture = k.1
    · simp [hsel]
    · simp [hsel]
  · intro st ks ps
    obtain ⟨t, ht, hst, hc⟩ :=
      SCache.scope_round_trip st.shaderState ks (ps.map fun p => ((), p))
    have hproj : ((st.pushShaderPrograms ks).runProgramBinds ps).shaderState =
        (st.shaderState.pushAll ks).bindAll (ps.map fun p => ((), p)) := by
      rw [GLStateManager.runProgramBinds_shaderState,
        GLStateManager.pushShaderPrograms_shaderState]
    have hpop : ((st.pushShaderPrograms ks).runProgramBinds ps).shaderState.popN
        ks.length = .ok t := by
      rw [hproj]
      exact ht
    have hps :=
      GLStateManager.popShaderProgramsN_bridge ks.length
        ((st.pushShaderPrograms ks).runProgramBinds ps) t hpop
    refine ⟨_, hps, hst, fun hne => ?_⟩
    match ks, hne with
    | () :: ks', _ => exact hc () (List.mem_cons_self _ _)
  · intro st p rest hstack
    unfold GLStateManager.PopShaderProgram SCache.pop
    rw [hstack]
    rfl

/-- Witness for C3 at a concrete input: from the initial state, push boolean
state 3 (saved value `false`), set it to `true` in between, pop once — the
run succeeds and state 3 reads `false` again. -/
theorem scope_balance_witness :
    ∃ stf calls,
      ((GLStateManager.initial.pushStates [3]).runStateSets [(3, true)]).PopStates 1 =
        .ok (stf, calls) ∧
      stf.renderState.cache 3 = false := by
  obtain ⟨stf, calls, h1, h2, h3⟩ :=
    scope_balance.1 GLStateManager.initial [3] [(3, true)]
  refine ⟨stf, calls, h1, ?_⟩
  rw [h3 3 (by simp)]
  rfl

end LLGL
